import Mathlib

set_option maxHeartbeats 1600000
set_option maxRecDepth 4000

/-!
Verification of the job-matcher MCP server (JavaScript sources: `index.js`,
`rateLimiter.js`, `validator.js`, `tools.js`, `markdownFormatter.js`,
`src/worker.js`, `start-http.js`) against its natural-language specification.

The JavaScript modules are shallowly embedded: JS strings become Lean `String`
processed as `List Char`; the JS numbers reaching the code paths under study
are embedded as `Int`/`Nat` (and `Rat` for the backend similarity score); JS
`Date` values are milliseconds since the Unix epoch (`Int`), with `none`
standing for `NaN`/an Invalid Date; the mutable per-session maps of the two
rate limiters become functions `String → Option _` that are updated
functionally.  Each definition carries the name of the JavaScript function it
translates.
-/

namespace JobMatcher

/-- The JS whitespace class `\s`: the ASCII whitespace characters plus NBSP.
(The remaining Unicode space separators matched by `\s` do not occur in any
input considered in this development.) -/
def isJsWs (c : Char) : Bool :=
  c = ' ' || c = '\t' || c = '\n' || c = '\r' || c = '\x0b' || c = '\x0c' || c = ' '

/-- JS `String.prototype.length` (UTF-16 code units; all inputs considered here
are in the basic plane, where code units and characters coincide). -/
def jsLength (s : String) : Nat := s.data.length

/-- JS `String.prototype.trim` on a character list. -/
def trimList (l : List Char) : List Char :=
  ((l.dropWhile isJsWs).reverse.dropWhile isJsWs).reverse

/-- JS `String.prototype.trim`. -/
def jsTrim (s : String) : String := ⟨trimList s.data⟩

/-- One global pass of `text.replace(/\s+/g, ' ')`: every maximal whitespace
run becomes a single space (emitted at the head of the run; the flag records
being inside a run). -/
def collapseRunsAux : Bool → List Char → List Char
  | _, [] => []
  | inRun, c :: cs =>
    if isJsWs c then
      if inRun then collapseRunsAux true cs else ' ' :: collapseRunsAux true cs
    else c :: collapseRunsAux false cs

def collapseRuns (l : List Char) : List Char := collapseRunsAux false l

/-- Characters matched by an unflagged JS regex dot `.` (everything except the
four line terminators). -/
def jsDotOk (c : Char) : Bool :=
  !(c = '\n' || c = '\r' || c = ' ' || c = ' ')

/-- Scanner for the spam-detection regex `/(.)\1{20,}/`: `c` is the character
of the current run and `k` its length so far. -/
def runScan : Char → Nat → List Char → Bool
  | _, _, [] => false
  | c, k, d :: ds =>
    if d = c then
      if 21 ≤ k + 1 && jsDotOk c then true else runScan c (k + 1) ds
    else runScan d 1 ds

/-- Translation of `/(.)\1{20,}/.test(text)`: some character other than a line terminator
occurs 21 or more times consecutively. -/
def hasRepeatedChars (s : String) : Bool :=
  match s.data with
  | [] => false
  | c :: cs => runScan c 1 cs

/-- A run of 21 identical characters of any kind (the literal reading of the
specification's "no run of 21 or more consecutive identical characters"; unlike
`hasRepeatedChars` this also counts runs of line terminators). -/
def hasIdenticalRun (s : String) : Bool :=
  match s.data with
  | [] => false
  | c :: cs => runScanAny c 1 cs
where
  runScanAny : Char → Nat → List Char → Bool
    | _, _, [] => false
    | c, k, d :: ds =>
      if d = c then
        if 21 ≤ k + 1 then true else runScanAny c (k + 1) ds
      else runScanAny d 1 ds

/-- JS `String.prototype.split` with a run regex such as `/\s+/` or `/[.!?]+/`:
each maximal delimiter run separates two fields; a leading or trailing run
yields an empty first or last field.  A delimiter only opens a new field when
the next character does not extend its run. -/
def splitOnRuns (p : Char → Bool) : List Char → List (List Char)
  | [] => [[]]
  | c :: cs =>
    if p c then
      match cs, splitOnRuns p cs with
      | [], r => [] :: r
      | d :: _, r => if p d then r else [] :: r
    else
      match splitOnRuns p cs with
      | [] => [[c]]
      | seg :: segs => (c :: seg) :: segs

/-- Translation of `s.split(/\s+/)`. -/
def jsSplitWs (s : String) : List String :=
  (splitOnRuns isJsWs s.data).map fun l => String.mk l

/-- JS `String.prototype.split` with a single-character separator. -/
def splitOnChar (sep : Char) : List Char → List (List Char)
  | [] => [[]]
  | c :: cs =>
    if c = sep then [] :: splitOnChar sep cs
    else
      match splitOnChar sep cs with
      | [] => [[c]]
      | seg :: segs => (c :: seg) :: segs

/-- Decimal value of a digit character. -/
def digitVal (c : Char) : Nat := c.toNat - '0'.toNat

/-- Value of a string of decimal digits. -/
def digitsVal (l : List Char) : Nat :=
  l.foldl (fun a c => a * 10 + digitVal c) 0

/-- JS `parseInt` restricted to decimal notation (the hexadecimal `0x` form
never appears in the inputs considered here): skip leading whitespace, read an
optional sign and then the longest digit run; `none` models `NaN`. -/
def jsParseInt (s : String) : Option Int :=
  let l := s.data.dropWhile isJsWs
  let signAndRest : Int × List Char :=
    match l with
    | '-' :: rest => (-1, rest)
    | '+' :: rest => (1, rest)
    | _ => (1, l)
  let ds := signAndRest.2.takeWhile Char.isDigit
  if ds.isEmpty then none else some (signAndRest.1 * (digitsVal ds : Int))

/-! ### Dates

JS `Date` values are modelled as epoch milliseconds.  The only date strings
reaching `new Date` in the validated paths are of the strict `YYYY-MM-DD`
form, which V8 parses as UTC midnight of a real calendar date and rejects
(Invalid Date, i.e. `NaN`) otherwise; all other strings are modelled as
unparsable. -/

/-- Translation of `CONFIG.DATE_REGEX`, i.e. `/^\d{4}-\d{2}-\d{2}$/.test s`. -/
def dateRegexTest (s : String) : Bool :=
  match s.data with
  | [y1, y2, y3, y4, h1, m1, m2, h2, d1, d2] =>
    y1.isDigit && y2.isDigit && y3.isDigit && y4.isDigit && h1 == '-' &&
    m1.isDigit && m2.isDigit && h2 == '-' && d1.isDigit && d2.isDigit
  | _ => false

/-- Read the year, month and day fields of a `YYYY-MM-DD` string. -/
def parseYMD (s : String) : Option (Int × Nat × Nat) :=
  match s.data with
  | [y1, y2, y3, y4, h1, m1, m2, h2, d1, d2] =>
    if y1.isDigit && y2.isDigit && y3.isDigit && y4.isDigit && h1 == '-' &&
       m1.isDigit && m2.isDigit && h2 == '-' && d1.isDigit && d2.isDigit then
      some ((digitVal y1 * 1000 + digitVal y2 * 100 + digitVal y3 * 10 + digitVal y4 : Nat),
            digitVal m1 * 10 + digitVal m2, digitVal d1 * 10 + digitVal d2)
    else none
  | _ => false |> fun _ => none

def isLeapYear (y : Int) : Bool :=
  (y % 4 == 0 && y % 100 != 0) || y % 400 == 0

def daysInMonth (y : Int) (m : Nat) : Nat :=
  if m = 2 then (if isLeapYear y then 29 else 28)
  else if m = 4 || m = 6 || m = 9 || m = 11 then 30
  else 31

def isRealDate (y : Int) (m d : Nat) : Bool :=
  decide (1 ≤ m) && decide (m ≤ 12) && decide (1 ≤ d) && decide (d ≤ daysInMonth y m)

/-- Days from the civil epoch 1970-01-01 (Gregorian calendar, the standard
days-from-civil computation).  The year always lies in `0000..9999` here, so
all the divisions are of non-negative values. -/
def daysFromCivil (y : Int) (m d : Nat) : Int :=
  let yAdj : Int := if m ≤ 2 then y - 1 else y
  let era : Int := (if 0 ≤ yAdj then yAdj else yAdj - 399) / 400
  let yoe : Int := yAdj - era * 400
  let mAdj : Int := if 2 < m then (m : Int) - 3 else (m : Int) + 9
  let doy : Int := (153 * mAdj + 2) / 5 + (d : Int) - 1
  let doe : Int := yoe * 365 + yoe / 4 - yoe / 100 + doy
  era * 146097 + doe - 719468

def msPerDay : Int := 86400000

/-- Model of `new Date(s)` / `new Date(s + 'T00:00:00.000Z')` for the strings
considered here: a strict `YYYY-MM-DD` string denoting a real calendar date
parses to UTC midnight, anything else is an Invalid Date (`none` = `NaN`). -/
def jsDateParse (s : String) : Option Int :=
  match parseYMD s with
  | some (y, m, d) =>
    if isRealDate y m d then some (daysFromCivil y m d * msPerDay) else none
  | none => none

/-! ### `validator.js` -/

def MIN_RESUME_LENGTH : Nat := 500
def MAX_RESUME_LENGTH : Nat := 15000

structure ValidationResult where
  valid : Bool
  errors : List String
deriving DecidableEq, Repr

/-- The argument object of a tool call.  Both tool schemas declare exactly the
string-typed properties below (plus `page`, accepted by `validator.js` but
absent from the schemas); `none` models an absent property. -/
structure Args where
  resume_text : Option String := none
  user_experience : Option String := none
  keywords : Option String := none
  location : Option String := none
  start_date : Option String := none
  end_date : Option String := none
  page : Option String := none
  sort_by : Option String := none
deriving DecidableEq, Repr

/-- JS truthiness of an optional string: `undefined` and `''` are falsy. -/
def truthy : Option String → Bool
  | none => false
  | some s => s != ""

/-- Translation of `validateRequiredParameters` (the `typeof` branch is unreachable in this
embedding, where every supplied value is a string). -/
def validateRequiredParameters (args : Args) : List String :=
  if truthy args.resume_text then [] else ["Resume text is required"]

/-- Translation of `text.replace(/\s+/g, ' ').trim()`. -/
def normalizedResume (s : String) : String := jsTrim ⟨collapseRuns s.data⟩

/-- Translation of `normalizedText.split(/\s+/).filter(word => word.length > 0).length`. -/
def resumeWordCount (s : String) : Nat :=
  ((jsSplitWs (normalizedResume s)).filter fun w => 0 < jsLength w).length

/-- Translation of `validateMeaningfulContent` (the common-resume-sections scan only logs a
warning and never adds an error, so it is not translated). -/
def validateMeaningfulContent (text : String) : List String :=
  if jsLength (normalizedResume text) < MIN_RESUME_LENGTH then
    ["Resume text contains insufficient content (too much whitespace)"]
  else
    (if hasRepeatedChars text then
       ["Resume text contains suspicious repeated characters"] else [])
    ++ (if resumeWordCount text < 10 then
         ["Resume text must contain at least 10 words"] else [])

/-- Translation of `validateResumeText`. -/
def validateResumeText (resumeText : String) : List String :=
  (if jsLength resumeText < MIN_RESUME_LENGTH then
     ["Resume text is too short. Minimum 500 characters required"] else [])
  ++ (if MAX_RESUME_LENGTH < jsLength resumeText then
       ["Resume text is too long. Maximum 15000 characters allowed"] else [])
  ++ validateMeaningfulContent resumeText

/-- Translation of `validateUserExperience`. -/
def validateUserExperience (experience : String) : List String :=
  match jsParseInt experience with
  | none => ["User experience must be a valid number"]
  | some n =>
    if n < 0 then ["User experience cannot be negative"]
    else if 50 < n then ["User experience seems unusually high (maximum 50 years)"]
    else []

/-- Translation of `validateKeywords`. -/
def validateKeywords (keywords : String) : List String :=
  (if 500 < jsLength keywords then
     ["Keywords string is too long (maximum 500 characters)"] else [])
  ++ (let keywordList :=
        ((splitOnChar ',' keywords.data).map fun l => jsTrim ⟨l⟩).filter fun k => 0 < jsLength k
      (if keywordList.length = 0 then
         ["At least one keyword is required when keywords parameter is provided"]
       else if 50 < keywordList.length then ["Too many keywords (maximum 50)"]
       else [])
      ++ (keywordList.map fun k =>
           if jsLength k < 2 then
             ["Keyword \"" ++ k ++ "\" is too short (minimum 2 characters)"]
           else if 50 < jsLength k then
             ["Keyword \"" ++ k ++ "\" is too long (maximum 50 characters)"]
           else []).flatten)

/-- Translation of `validateLocation`. -/
def validateLocation (location : String) : List String :=
  (if 5000 < jsLength location then
     ["Location string is too long (maximum 5000 characters)"] else [])
  ++ (let locationList :=
        ((splitOnChar ',' location.data).map fun l => jsTrim ⟨l⟩).filter fun k => 0 < jsLength k
      (if locationList.length = 0 then
         ["At least one location is required when location parameter is provided"]
       else if 100 < locationList.length then ["Too many locations (maximum 100)"]
       else [])
      ++ (locationList.map fun k =>
           if jsLength k < 2 then
             ["Location \"" ++ k ++ "\" is too short (minimum 2 characters)"]
           else if 50 < jsLength k then
             ["Location \"" ++ k ++ "\" is too long (maximum 50 characters)"]
           else []).flatten)

/-- Translation of `validateDate`.  The reasonable-range bounds `new Date(2020, 0, 1)` and
`new Date(now.getFullYear() + 2, 11, 31)` are local-midnight values; the model
places them at UTC midnight and takes the current year as the explicit
parameter `currentYear`.  An Invalid Date (`NaN`) compares false against both
bounds, so an unparsable value only yields the "not a valid date" error. -/
def validateDate (currentYear : Int) (dateString : String) (fieldName : String) : List String :=
  if !dateRegexTest dateString then
    [fieldName ++ " must be in YYYY-MM-DD format (e.g., \"2025-01-15\")"]
  else
    (match jsDateParse dateString with
     | none => [fieldName ++ " is not a valid date"]
     | some _ => [])
    ++ (match jsDateParse dateString with
        | none => []
        | some ms =>
          if ms < daysFromCivil 2020 1 1 * msPerDay then
            [fieldName ++ " is too far in the past (minimum: 2020-01-01)"]
          else if daysFromCivil (currentYear + 2) 12 31 * msPerDay < ms then
            [fieldName ++ " is too far in the future (maximum: " ++
              toString (currentYear + 2) ++ "-12-31)"]
          else [])

/-- Translation of `validateDateRange`.  `start >= end` and the day-span comparison both come
out false when either `new Date` value is `NaN`. -/
def validateDateRange (startDate endDate : String) : List String :=
  (match jsDateParse startDate, jsDateParse endDate with
   | some a, some b => if b ≤ a then ["Start date must be before end date"] else []
   | _, _ => [])
  ++ (match jsDateParse startDate, jsDateParse endDate with
      | some a, some b =>
        if 365 * msPerDay < b - a then ["Date range is too long (maximum 1 year)"] else []
      | _, _ => [])

/-- Translation of `validatePage`. -/
def validatePage (page : String) : List String :=
  match jsParseInt page with
  | none => ["Page must be a valid number"]
  | some n =>
    if n < 1 then ["Page must be 1 or greater"]
    else if 1000 < n then ["Page number is too high (maximum 1000)"]
    else []

/-- Translation of `validateSortBy`. -/
def validateSortBy (sortBy : String) : List String :=
  if sortBy.toLower == "similarity" || sortBy.toLower == "date" then []
  else ["Sort_by must be one of: similarity, date"]

/-- Translation of `validateOptionalParameters`.  Each optional field is checked when present
and non-empty (`page`, as in the source, whenever present). -/
def validateOptionalParameters (currentYear : Int) (args : Args) : List String :=
  (match args.user_experience with
   | some s => if s != "" then validateUserExperience s else []
   | none => [])
  ++ (match args.keywords with
      | some s => if s != "" then validateKeywords s else []
      | none => [])
  ++ (match args.location with
      | some s => if s != "" then validateLocation s else []
      | none => [])
  ++ (match args.start_date with
      | some s => if s != "" then validateDate currentYear s "start_date" else []
      | none => [])
  ++ (match args.end_date with
      | some s => if s != "" then validateDate currentYear s "end_date" else []
      | none => [])
  ++ (match args.start_date, args.end_date with
      | some s, some e => if s != "" && e != "" then validateDateRange s e else []
      | _, _ => [])
  ++ (match args.page with
      | some p => validatePage p
      | none => [])
  ++ (match args.sort_by with
      | some s => if s != "" then validateSortBy s else []
      | none => [])

/-- Translation of `validateInputs` from `validator.js` (the `try`/`catch` wrapper is dead in
this total embedding). -/
def validateInputs (currentYear : Int) (args : Args) : ValidationResult :=
  let errors :=
    validateRequiredParameters args
    ++ (match args.resume_text with
        | some s => if s != "" then validateResumeText s else []
        | none => [])
    ++ validateOptionalParameters currentYear args
  ⟨errors.isEmpty, errors⟩

/-! ### `tools.js` — schema-level parameter validation

`validateToolParameters` checks an argument object against the `inputSchema`
of the named tool.  Both tools (`match_resume` and `match_jobs_to_apply`)
declare the same schema: the string properties of `Args` except `page`, with
`resume_text` required, a `YYYY-MM-DD` `pattern` on the two date fields, an
`enum` on `sort_by`, and `additionalProperties: false`.  The `Object.entries`
loop is translated field by field in the schema's declaration order; the
string-typed fields without `pattern`/`enum` contribute no errors (the `string`
type test cannot fail in this embedding), and a supplied `page` hits the
unknown-parameter branch. -/

def knownTool (toolName : String) : Bool :=
  toolName == "match_resume" || toolName == "match_jobs_to_apply"

/-- Translation of `params.start_date && params.start_date.trim() !== ''`. -/
def hasDateValue : Option String → Bool
  | none => false
  | some s => s != "" && jsTrim s != ""

/-- The pattern-mismatch message for a date field (the interpolated pattern is
`^\d{4}-\d{2}-\d{2}$`). -/
def patternErrorMsg (key : String) : String :=
  "Parameter " ++ key ++ " format is invalid. Expected format: ^\\d\x7b4\x7d-\\d\x7b2\x7d-\\d\x7b2\x7d$"

/-- The `Object.entries` loop skips values that are `undefined`, `null` or `''`. -/
def entryCheck (v : Option String) (f : String → List String) : List String :=
  match v with
  | none => []
  | some s => if s == "" then [] else f s

/-- Translation of `validateToolParameters` from `tools.js`. -/
def validateToolParameters (toolName : String) (params : Args) : ValidationResult :=
  if !knownTool toolName then ⟨false, ["Unknown tool: " ++ toolName]⟩
  else
    let requiredErrors :=
      match params.resume_text with
      | none => ["Missing required parameter: resume_text"]
      | some _ => []
    let hasStartDate := hasDateValue params.start_date
    let hasEndDate := hasDateValue params.end_date
    let depErrors :=
      (if hasStartDate && !hasEndDate then
         ["When start_date is provided, end_date must also be provided to create a complete date range"]
       else [])
      ++ (if hasEndDate && !hasStartDate then
            ["When end_date is provided, start_date must also be provided to create a complete date range"]
          else [])
      ++ (if hasStartDate && hasEndDate then
            match jsDateParse ((params.start_date).getD ""),
                  jsDateParse ((params.end_date).getD "") with
            | some a, some b => if b ≤ a then ["start_date must be before end_date"] else []
            | _, _ => []
          else [])
    let entryErrors :=
      entryCheck params.start_date
        (fun v => if dateRegexTest v then [] else [patternErrorMsg "start_date"])
      ++ entryCheck params.end_date
          (fun v => if dateRegexTest v then [] else [patternErrorMsg "end_date"])
      ++ entryCheck params.sort_by
          (fun v => if v == "similarity" || v == "date" then []
                    else ["Parameter sort_by must be one of: similarity, date"])
      ++ entryCheck params.page (fun _ => ["Unknown parameter: page"])
    let errors := requiredErrors ++ depErrors ++ entryErrors
    ⟨errors.isEmpty, errors⟩

/-! ### `rateLimiter.js` — the Node sliding-window limiter -/

/-- The per-session record: `{ requests: [], resetTime: timestamp }`. -/
structure UserData where
  requests : List Int
  resetTime : Int
deriving DecidableEq, Repr

/-- The `users` map of `RateLimiter` (absent session ↦ `none`). -/
def RLState := String → Option UserData

def emptyRL : RLState := fun _ => none

def updateRL (st : RLState) (sid : String) (u : UserData) : RLState :=
  fun s => if s = sid then some u else st s

/-- The object returned by `RateLimiter.checkLimit` (`resetTime` is kept as
epoch milliseconds; the source wraps it in `new Date`). -/
structure CheckResult where
  allowed : Bool
  remaining : Int
  resetTime : Int
  requestCount : Nat
  limit : Nat
deriving DecidableEq, Repr

namespace RateLimiter

/-- Translation of `RateLimiter.cleanOldRequests`: drop timestamps at or before `now - window`
and, if nothing survives, move `resetTime` to `now + window`. -/
def cleanOldRequests (windowSizeMs : Int) (u : UserData) (now : Int) : UserData :=
  let requests := u.requests.filter fun t => decide (now - windowSizeMs < t)
  ⟨requests, if requests.isEmpty then now + windowSizeMs else u.resetTime⟩

/-- Translation of `RateLimiter.getUserData` (creation of the fresh record; the map insertion
is folded into the final state update of `checkLimit`). -/
def getUserData (windowSizeMs : Int) (st : RLState) (sid : String) (now : Int) : UserData :=
  match st sid with
  | some u => u
  | none => ⟨[], now + windowSizeMs⟩

/-- Translation of `RateLimiter.checkLimit`.  The in-place mutations of the session record
become the stored `UserData` of the returned state: the cleaned record on
denial, the cleaned record plus the new timestamp (with `resetTime = now +
window`) on success. -/
def checkLimit (requestsPerMinute : Nat) (windowSizeMs : Int)
    (st : RLState) (sid : String) (now : Int) : CheckResult × RLState :=
  let userData := getUserData windowSizeMs st sid now
  let cleaned := cleanOldRequests windowSizeMs userData now
  if requestsPerMinute ≤ cleaned.requests.length then
    (⟨false, 0, cleaned.resetTime, cleaned.requests.length, requestsPerMinute⟩,
     updateRL st sid cleaned)
  else
    let recorded : UserData := ⟨cleaned.requests ++ [now], now + windowSizeMs⟩
    (⟨true, (requestsPerMinute : Int) - (recorded.requests.length : Int),
      recorded.resetTime, recorded.requests.length, requestsPerMinute⟩,
     updateRL st sid recorded)

/-- A sequence of `checkLimit` calls for one session at the given times. -/
def run (lim : Nat) (w : Int) (sid : String) (ts : List Int) (st : RLState) : RLState :=
  ts.foldl (fun s t => (checkLimit lim w s sid t).2) st

end RateLimiter

/-- The recorded timestamps of a session (empty for an absent session). -/
def sessionRequests (st : RLState) (sid : String) : List Int :=
  match st sid with
  | some u => u.requests
  | none => []

/-! ### `src/worker.js` — `WorkersRateLimiter` and the worker handlers -/

namespace Workers

/-- The `requests` map of `WorkersRateLimiter`. -/
def WState := String → Option (List Int)

def emptyW : WState := fun _ => none

/-- Translation of `Math.min(...recentRequests)` (for the empty list JS yields `+Infinity`;
that case is unreachable under a positive limit and is given a junk value). -/
def jsMinList : List Int → Int
  | [] => 0
  | h :: t => t.foldl min h

/-- The object returned by `WorkersRateLimiter.checkLimit`. -/
structure WCheckResult where
  allowed : Bool
  remaining : Int
  resetTime : Int
  total : Nat
deriving DecidableEq, Repr

/-- Translation of `WorkersRateLimiter.checkLimit` (the window is hard-coded to 60 000 ms).
On denial the map is left untouched; on success the filtered list plus `now`
is stored. -/
def checkLimit (limitPerMinute : Nat) (st : WState) (sid : String) (now : Int) :
    WCheckResult × WState :=
  let windowStart := now - 60000
  let sessionRequests := (st sid).getD []
  let recentRequests := sessionRequests.filter fun t => decide (windowStart < t)
  if limitPerMinute ≤ recentRequests.length then
    let oldestRequest := jsMinList recentRequests
    (⟨false, 0, oldestRequest + 60000, limitPerMinute⟩, st)
  else
    let recorded := recentRequests ++ [now]
    (⟨true, (limitPerMinute : Int) - (recorded.length : Int), now + 60000, limitPerMinute⟩,
     fun s => if s = sid then some recorded else st s)

end Workers

/-! ### The tool-call handlers (`index.js` and `src/worker.js`)

Both `handleMatchResumeCall` implementations run the same three-stage
pipeline: rate-limit check, then `validateInputs`, then the backend call.  The
outcome abstracts the three possible response documents; the backend call and
the subsequent rendering are outside the scope of the claims, so a successful
run is recorded as `backendCalled` with the remaining quota that would be
passed to the formatter. -/

inductive Outcome where
  | rateLimited (resetTime : Int) (remaining : Int)
  | validationError (errors : List String)
  | backendCalled (remainingQuota : Int)
deriving DecidableEq, Repr

def Outcome.isRateLimited : Outcome → Bool
  | .rateLimited _ _ => true
  | _ => false

def Outcome.isValidationError : Outcome → Bool
  | .validationError _ => true
  | _ => false

def Outcome.isBackendCalled : Outcome → Bool
  | .backendCalled _ => true
  | _ => false

/-- Translation of `JobMatcherMCPServer.getSessionId` (stdio transport). -/
def getSessionId : String := "claude-desktop-session"

/-- Translation of `JobMatcherMCPServer.handleMatchResumeCall` (`index.js`; the
`match_jobs_to_apply` handler is line-for-line identical up to the renderer):
apply the rate limit, then validate, then call the backend. -/
def handleMatchResumeCall (lim : Nat) (w : Int) (currentYear : Int)
    (st : RLState) (args : Args) (now : Int) : Outcome × RLState :=
  let r := RateLimiter.checkLimit lim w st getSessionId now
  if !r.1.allowed then (.rateLimited r.1.resetTime r.1.remaining, r.2)
  else
    let validation := validateInputs currentYear args
    if !validation.valid then (.validationError validation.errors, r.2)
    else (.backendCalled r.1.remaining, r.2)

namespace Workers

/-- Translation of `WorkersJobMatcherServer.handleMatchResumeCall` (`src/worker.js`): the same
pipeline against the Workers rate limiter, with the session id supplied by the
`fetch` routing. -/
def handleMatchResumeCall (lim : Nat) (currentYear : Int)
    (st : WState) (args : Args) (sessionId : String) (now : Int) : Outcome × WState :=
  let r := Workers.checkLimit lim st sessionId now
  if !r.1.allowed then (.rateLimited r.1.resetTime r.1.remaining, r.2)
  else
    let validation := validateInputs currentYear args
    if !validation.valid then (.validationError validation.errors, r.2)
    else (.backendCalled r.1.remaining, r.2)

/-- The tool-call slice of the worker's `fetch` export: every invocation
constructs a fresh `WorkersJobMatcherServer` (`new WorkersJobMatcherServer()`),
hence a fresh `WorkersRateLimiter` with an empty `requests` map, before
dispatching to the handler. -/
def fetchToolCall (lim : Nat) (currentYear : Int)
    (args : Args) (sessionId : String) (now : Int) : Outcome × WState :=
  handleMatchResumeCall lim currentYear emptyW args sessionId now

end Workers

/-! ### `markdownFormatter.js` -/

/-- A JS `||` default on an optional string (both `undefined` and `''` fall
through to the default). -/
def jsOr (o : Option String) (d : String) : String :=
  match o with
  | some s => if s == "" then d else s
  | none => d

/-- JS truthiness of an optional number (`undefined` and `0` are falsy). -/
def jsTruthyNat : Option Nat → Bool
  | none => false
  | some n => n != 0

/-- A JS template-literal interpolation of a possibly-undefined string. -/
def jsTemplateStr (o : Option String) : String := o.getD "undefined"

/-- Translation of `Number.prototype.toLocaleString()` under the default `en-US`-style
grouping: digits grouped in threes by commas.  Helper on the reversed digit
list. -/
def groupThrees : List Char → List Char
  | d1 :: d2 :: d3 :: rest =>
    if rest.isEmpty then [d1, d2, d3] else d1 :: d2 :: d3 :: ',' :: groupThrees rest
  | l => l

def toLocaleStringNat (n : Nat) : String :=
  ⟨(groupThrees (toString n).data.reverse).reverse⟩

/-- A backend job match (`JobMatch` in the specification); every field is
backend-supplied and may be absent. -/
structure JobMatch where
  job_title : Option String := none
  company_name : Option String := none
  location : Option String := none
  locations : Option (List String) := none
  work_location : Option String := none
  office_locations : Option String := none
  remote_friendly : Option Bool := none
  location_type : Option String := none
  geographic_region : Option String := none
  similarity_score : Option ℚ := none
  job_link : Option String := none
  first_published : Option String := none
  min_experience_years : Option Nat := none
  experience_details : Option String := none
  salary : Option String := none
  job_type : Option String := none
  chunk_text : Option String := none
deriving DecidableEq, Repr

/-- The backend's `resume_processing` block. -/
structure ResumeProcessing where
  filename : String
  parsing_method : String
  enhancement_used : Bool
  original_length : Option Nat := none
  enhanced_length : Option Nat := none
deriving DecidableEq, Repr

/-- The backend JSON payload; the defaults are the destructuring defaults of
`transformJobData` / the two formatters.  `matchList` translates the source
field `matches`, which is a Lean keyword. -/
structure BackendData where
  matchList : List JobMatch := []
  total_matches : Nat := 0
  page : Nat := 1
  total_pages : Nat := 0
  has_more : Bool := false
  extracted_skills : List String := []
  user_experience : Option String := none
  resume_processing : Option ResumeProcessing := none
  keywords : Option String := none
deriving DecidableEq, Repr

/-- Translation of `Math.round(x)` for the non-negative arguments arising here (JS rounds
half-up, toward `+∞`). -/
def jsRound (q : ℚ) : Int := ⌊q + 1 / 2⌋

/-- Translation of `generateJobId`: last path segment of `job_link` when the link is truthy,
otherwise the lower-cased, whitespace-collapsed `company_title` fallback. -/
def generateJobId (job : JobMatch) (index : Nat) : String :=
  let baseId :=
    match job.job_link with
    | some link =>
      if link == "" then generateJobIdFallback job else String.mk ((splitOnChar '/' link.data).getLastD [])
    | none => generateJobIdFallback job
  "job_" ++ baseId ++ "_" ++ toString index
where
  /-- Translation of `` `${job.company_name}_${job.job_title}`.replace(/\s+/g, '_').toLowerCase() ``. -/
  generateJobIdFallback (job : JobMatch) : String :=
    (String.mk ((collapseRuns (jsTemplateStr job.company_name ++ "_" ++ jsTemplateStr job.job_title).data).map
      fun c => if c = ' ' then '_' else c)).toLower

/-- The value computed by `formatDate`, kept symbolic: `localeDate` stands for
`date.toLocaleDateString()` (with `none`, an Invalid Date, rendering as the
string `"Invalid Date"` rather than throwing). -/
inductive DateLabel where
  | recentlyPosted
  | today
  | yesterday
  | daysAgo (n : Nat)
  | weeksAgo (n : Nat)
  | monthsAgo (n : Nat)
  | localeDate (ms : Option Int)
deriving DecidableEq, Repr

/-- Translation of `formatDate`.  A falsy argument returns early; an Invalid Date makes every
`diffDays` comparison `false` (NaN semantics), so control falls through to
`toLocaleDateString()`; the `catch` branch is unreachable because none of the
involved operations throws. -/
def formatDate (dateString : Option String) (nowMs : Int) : DateLabel :=
  match dateString with
  | none => .recentlyPosted
  | some s =>
    if s == "" then .recentlyPosted
    else
      match jsDateParse s with
      | none => .localeDate none
      | some ms =>
        let diffDays : Nat := (nowMs - ms).natAbs / 86400000
        if diffDays = 0 then .today
        else if diffDays = 1 then .yesterday
        else if diffDays < 7 then .daysAgo diffDays
        else if diffDays < 30 then .weeksAgo (diffDays / 7)
        else if diffDays < 365 then .monthsAgo (diffDays / 30)
        else .localeDate (some ms)

/-- String rendering of a `DateLabel`; the locale rendering of a valid date is
an abstract stand-in (no fixed locale exists), that of an Invalid Date is the
literal `"Invalid Date"` produced by V8. -/
def renderDateLabel : DateLabel → String
  | .recentlyPosted => "Recently posted"
  | .today => "Today"
  | .yesterday => "Yesterday"
  | .daysAgo n => toString n ++ " days ago"
  | .weeksAgo n => toString n ++ " weeks ago"
  | .monthsAgo n => toString n ++ " months ago"
  | .localeDate none => "Invalid Date"
  | .localeDate (some ms) => "[locale date " ++ toString ms ++ "]"

def formatDateStr (dateString : Option String) (nowMs : Int) : String :=
  renderDateLabel (formatDate dateString nowMs)

/-- A display-ready job (`NormalizedJob`); `matchPercent` translates the source
field `match`, which is a Lean keyword. -/
structure NormalizedJob where
  id : String
  title : String
  company : String
  location : String
  locations : Option (List String)
  workLocation : Option String
  officeLocations : Option String
  remoteFriendly : Option Bool
  locationType : Option String
  geographicRegion : Option String
  matchPercent : Int
  url : String
  posted : String
  firstPublishedAt : String
  experience : String
  experienceDetails : String
  salary : String
  jobType : String
  description : String
deriving DecidableEq, Repr

/-- The per-job arrow function inside `transformJobData` (`matches.map`).
`min_experience_years` of `0` is falsy, so it also yields `'Not specified'`. -/
def transformJob (nowMs : Int) (job : JobMatch) (index : Nat) : NormalizedJob :=
  { id := generateJobId job index
    title := jsOr job.job_title "Job Title Not Available"
    company := jsOr job.company_name "Company Not Specified"
    location := jsOr job.location "Location Not Specified"
    locations := job.locations
    workLocation := job.work_location
    officeLocations := job.office_locations
    remoteFriendly := job.remote_friendly
    locationType := job.location_type
    geographicRegion := job.geographic_region
    matchPercent := jsRound ((job.similarity_score.getD 0) * 100)
    url := jsOr job.job_link "#"
    posted := formatDateStr job.first_published nowMs
    firstPublishedAt := formatDateStr job.first_published nowMs
    experience :=
      match job.min_experience_years with
      | some n => if n = 0 then "Not specified" else toString n ++ " years"
      | none => "Not specified"
    experienceDetails := jsOr job.experience_details "No experience details available"
    salary := jsOr job.salary "Salary not specified"
    jobType := jsOr job.job_type "Job type not specified"
    description := jsOr job.chunk_text "No description available" }

structure TransformedMeta where
  total : Nat
  page : Nat
  totalPages : Nat
  hasMore : Bool
  skills : List String
  experience : Option String
  quota : Option Int
  keywords : Option String
deriving DecidableEq, Repr

structure TransformedProcessing where
  filename : String
  method : String
  enhanced : Bool
  originalLength : Option Nat
  enhancedLength : Option Nat
deriving DecidableEq, Repr

structure TransformedData where
  jobs : List NormalizedJob
  meta : TransformedMeta
  processing : Option TransformedProcessing
deriving DecidableEq, Repr

/-- Translation of `transformJobData`. -/
def transformJobData (nowMs : Int) (backendData : BackendData) (remainingQuota : Option Int) :
    TransformedData :=
  { jobs := backendData.matchList.enum.map fun p => transformJob nowMs p.2 p.1
    meta :=
      { total := backendData.total_matches
        page := backendData.page
        totalPages := backendData.total_pages
        hasMore := backendData.has_more
        skills := backendData.extracted_skills
        experience := backendData.user_experience
        quota := remainingQuota
        keywords := backendData.keywords }
    processing := backendData.resume_processing.map fun rp =>
      { filename := rp.filename
        method := rp.parsing_method
        enhanced := rp.enhancement_used
        originalLength := rp.original_length
        enhancedLength := rp.enhanced_length } }

/-! #### `chunk_text` extractions -/

/-- Case-insensitive literal prefix test (`/i` regexes on literal patterns). -/
def matchesAtCI : List Char → List Char → Bool
  | [], _ => true
  | _ :: _, [] => false
  | p :: ps, c :: cs => p.toLower == c.toLower && matchesAtCI ps cs

/-- First case-insensitive occurrence of the literal `pat`; returns the suffix
following the occurrence. -/
def findCI (pat : List Char) : List Char → Option (List Char)
  | [] => if matchesAtCI pat [] then some [] else none
  | c :: cs =>
    if matchesAtCI pat (c :: cs) then some ((c :: cs).drop pat.length)
    else findCI pat cs

/-- Backtracking for `\s*(X+)` after a matched literal: the greedy `\s*` tries
to consume `k` whitespace characters, largest `k` first, and the capture is the
longest run of `ok` characters from there. -/
def tryBacktrack (ok : Char → Bool) (rest : List Char) : Nat → Option (List Char)
  | 0 =>
    (match rest with
     | [] => none
     | c :: _ => if ok c then some (rest.takeWhile ok) else none)
  | k + 1 =>
    (match rest.drop (k + 1) with
     | [] => tryBacktrack ok rest k
     | c :: _ =>
       if ok c then some ((rest.drop (k + 1)).takeWhile ok)
       else tryBacktrack ok rest k)

def captureAfterWs (ok : Char → Bool) (rest : List Char) : Option (List Char) :=
  tryBacktrack ok rest ((rest.takeWhile isJsWs).length)

/-- Translation of `text.match(/<pat>\s*(<class>+)/i)`: capture group of the first match.
When the attempt at an occurrence fails, everything after that occurrence
consists of line terminators, so no later occurrence can succeed either —
taking the first occurrence is therefore faithful to the regex engine. -/
def firstMatchCapture (pat : String) (ok : Char → Bool) (text : String) : Option (List Char) :=
  match findCI pat.data text.data with
  | none => none
  | some rest => captureAfterWs ok rest

/-- The capture of `/Required Skills:\s*([^\n]+)/i`, split on commas and
trimmed — the shared core of `extractRequiredSkills`. -/
def requiredSkillsItems (chunkText : String) : Option (List String) :=
  (firstMatchCapture "Required Skills:" (fun c => c != '\n') chunkText).map
    fun cap => (splitOnChar ',' cap).map fun l => jsTrim ⟨l⟩

/-- Translation of `extractRequiredSkills`: the items of the matched line, keeping only those
that are non-empty and shorter than 50 characters. -/
def extractRequiredSkills (chunkText : Option String) : List String :=
  match chunkText with
  | none => []
  | some s =>
    if s == "" then []
    else
      match requiredSkillsItems s with
      | some items => items.filter fun sk => 0 < jsLength sk && jsLength sk < 50
      | none => []

/-- The skills extraction exactly as the specification words it ("the
comma-separated items of the first 'Required Skills:' line, trimmed"), i.e.
without the source's non-empty/length-below-50 filtering.  Used only to
compare the claim's description against `extractRequiredSkills`. -/
def claimedRequiredSkills (chunkText : Option String) : List String :=
  match chunkText with
  | none => []
  | some s => if s == "" then [] else (requiredSkillsItems s).getD []

/-- The capture of `/Job Summary:\s*(.+)/i` (the dot excludes line
terminators, so the capture is a single line). -/
def jobSummaryCapture (chunkText : String) : Option (List Char) :=
  firstMatchCapture "Job Summary:" jsDotOk chunkText

/-- Recognise `Point\d+:` at the head of a list; returns the marker length. -/
def pointMarkerLen : List Char → Option Nat
  | 'P' :: 'o' :: 'i' :: 'n' :: 't' :: rest =>
    let ds := rest.takeWhile Char.isDigit
    if ds.isEmpty then none
    else
      (match rest.drop ds.length with
       | ':' :: _ => some (5 + ds.length + 1)
       | _ => none)
  | _ => none

/-- All positions of `Point\d+:` markers. -/
def pointMarkerIndices (l : List Char) : List Nat :=
  (List.range l.length).filter fun i => (pointMarkerLen (l.drop i)).isSome

/-- Length of the maximal whitespace suffix (the `\s*` of the lookahead
`(?=\s*Point\d+:|$)`). -/
def wsSuffixLen (l : List Char) : Nat := (l.reverse.takeWhile isJsWs).length

/-- The slice `l[start..stop)`, trimmed (marker-prefix removal plus `.trim()`
of the cleanup step). -/
def sliceTrim (l : List Char) (start stop : Nat) : String :=
  jsTrim ⟨(l.take stop).drop start⟩

/-- The segments of `/Point\d+:\s*[^]*?(?=\s*Point\d+:|$)/g`, already cleaned:
each segment runs from the end of its marker to the next marker (minus the
whitespace consumed by the lookahead), the last to the end of the line. -/
def segmentPoints (l : List Char) : List Nat → List String
  | [] => []
  | [m] => [sliceTrim l (m + (pointMarkerLen (l.drop m)).getD 0) l.length]
  | m :: m2 :: rest =>
    sliceTrim l (m + (pointMarkerLen (l.drop m)).getD 0) (m2 - wsSuffixLen (l.take m2))
      :: segmentPoints l (m2 :: rest)

/-- Translation of `extractJobSummary`: split the `Job Summary:` line on `PointN:` markers
when any are present (dropping empty points), otherwise on sentence
boundaries, keeping fragments longer than 10 characters and at most 5 of
them. -/
def extractJobSummary (chunkText : Option String) : List String :=
  match chunkText with
  | none => []
  | some s =>
    if s == "" then []
    else
      match jobSummaryCapture s with
      | none => []
      | some cap =>
        match pointMarkerIndices cap with
        | [] =>
          (((splitOnRuns (fun c => c = '.' || c = '!' || c = '?') cap).map
              fun l => jsTrim ⟨l⟩).filter fun sentence => 10 < jsLength sentence).take 5
        | m :: ms => (segmentPoints cap (m :: ms)).filter fun point => point != ""

/-! #### The Markdown generators

The emoji vocabulary is copied byte-for-byte from the source, including the
U+FFFD replacement characters present in `generateJobMatcherMarkdown` (its
local match-indicator expressions are damaged in the source and differ from
the intact one in `generateJobIndexTableMarkdown`). -/

/-- The colored match indicator of `generateJobIndexTableMarkdown`
(`job.match >= 70 ? '🟢' : job.match >= 40 ? '🟡' : '🟠'`). -/
def matchColor (m : Int) : String :=
  if 70 ≤ m then "🟢" else if 40 ≤ m then "🟡" else "🟠"

/-- The (damaged) indicator of the index table inside
`generateJobMatcherMarkdown`. -/
def matchColorIndexFull (m : Int) : String :=
  if 70 ≤ m then "🟢" else if 40 ≤ m then "�" else "🟠"

/-- The (damaged) indicator of the detail sections inside
`generateJobMatcherMarkdown`. -/
def matchColorDetail (m : Int) : String :=
  if 70 ≤ m then "�" else if 40 ≤ m then "🟡" else "🟠"

/-- The search-summary table shared by both job generators (modulo heading). -/
def searchSummaryBlock (meta : TransformedMeta) : String :=
  "## 📊 Search Summary\n\n"
  ++ "| **Metric** | **Value** |\n"
  ++ "|------------|-----------|\n"
  ++ "| 🎯 **Total Matches** | **" ++ toLocaleStringNat meta.total ++ " Job Opportunities** |\n"
  ++ (if truthy meta.experience then
        "| 👨‍💼 **Experience Level** | " ++ (meta.experience.getD "") ++ " years |\n"
      else "")
  ++ (if meta.skills.isEmpty then ""
      else "| 🛠️ **Detected Skills** | "
        ++ String.intercalate " " (meta.skills.map fun skill => "`" ++ skill ++ "`") ++ " |\n")
  ++ "\n"

/-- The resume-processing table shared by both job generators. -/
def processingBlock (processing : Option TransformedProcessing) : String :=
  match processing with
  | none => ""
  | some p =>
    "## 📊 Resume Processing Summary\n\n"
    ++ "| Processing Info | Details |\n"
    ++ "|----------------|----------|\n"
    ++ "| **📄 File** | " ++ p.filename ++ " |\n"
    ++ "| **⚙️ Method** | " ++ p.method ++ " |\n"
    ++ "| **✨ Enhancement** | " ++ (if p.enhanced then "✅ Enhanced" else "⚠️ Standard") ++ " |\n"
    ++ (if jsTruthyNat p.originalLength && jsTruthyNat p.enhancedLength then
          "| **📏 Original Length** | " ++ toLocaleStringNat (p.originalLength.getD 0) ++ " characters |\n"
          ++ "| **📏 Enhanced Length** | " ++ toLocaleStringNat (p.enhancedLength.getD 0) ++ " characters |\n"
        else "")
    ++ "\n"

/-- The backend-metadata blockquote shared by both job generators (modulo the
closing tagline). -/
def backendMetadataBlock (meta : TransformedMeta) (tagline : String) : String :=
  "## 🚀 Backend Response Metadata\n\n"
  ++ "> ### 📡 **API Response Details**\n"
  ++ "> \n"
  ++ "> | Metadata | Value |\n"
  ++ "> |----------|-------|\n"
  ++ "> | **📊 Total Matches** | " ++ toLocaleStringNat meta.total ++ " opportunities |\n"
  ++ "> | ** Has More Results** | " ++ (if meta.hasMore then "Yes" else "No") ++ " |\n"
  ++ (if truthy meta.experience then
        "> | **👨‍💼 Experience Level** | " ++ (meta.experience.getD "") ++ " years |\n"
      else "")
  ++ (if meta.skills.isEmpty then ""
      else "> | **🎯 Skills Detected** | " ++ toString meta.skills.length ++ " skills identified |\n")
  ++ "> \n"
  ++ "> *🔧 " ++ tagline ++ "*\n\n"

/-- One row of the (damaged) index table of `generateJobMatcherMarkdown`: the
source row omits the first-published column promised by its header. -/
def fullIndexRow (rank : Nat) (job : NormalizedJob) : String :=
  "| " ++ toString rank ++ " | 🏢 **" ++ job.company ++ "** | " ++ job.title ++ " | "
  ++ matchColorIndexFull job.matchPercent ++ " **" ++ toString job.matchPercent ++ "%** | "
  ++ job.location ++ " | " ++ job.experience ++ " | [� **Apply**](" ++ job.url ++ ") |\n"

/-- One detailed job section of `generateJobMatcherMarkdown`. -/
def fullDetailSection (rank : Nat) (job : NormalizedJob) : String :=
  "## " ++ toString rank ++ ". 🏢 " ++ job.company ++ " - " ++ job.title ++ "\n\n"
  ++ "| **Detail** | **Information** |\n"
  ++ "|------------|------------------|\n"
  ++ "| 🎯 **Match Score** | " ++ matchColorDetail job.matchPercent ++ " **"
  ++ toString job.matchPercent ++ "%** |\n"
  ++ "| 💼 **Experience Required** | " ++ job.experience ++ " |\n"
  ++ "| 📍 **Location** | " ++ job.location ++ " |\n"
  ++ "| 📅 **First Published At** | " ++ job.firstPublishedAt ++ " |\n"
  ++ "| 🔗 **Apply** | [**Apply Now**](" ++ job.url ++ ") |\n\n"
  ++ (let skillsFromDescription := extractRequiredSkills (some job.description)
      if skillsFromDescription.isEmpty then ""
      else "### 🛠️ Required Skills\n"
        ++ String.intercalate " " (skillsFromDescription.map fun skill => "`" ++ jsTrim skill ++ "`")
        ++ "\n\n")
  ++ (let jobSummary := extractJobSummary (some job.description)
      if jobSummary.isEmpty then ""
      else "### 📋 Job Highlights\n"
        ++ String.join (jobSummary.map fun point => "- ✅ " ++ point ++ "\n") ++ "\n")
  ++ "---\n\n"

/-- Translation of `generateJobMatcherMarkdown` (the full-listings document). -/
def generateJobMatcherMarkdown (data : TransformedData) : String :=
  "# 🎯 Job Search Results Dashboard\n\n"
  ++ searchSummaryBlock data.meta
  ++ (if data.jobs.isEmpty then ""
      else "## 📑 Job Opportunities Index\n\n"
        ++ "| **#** | **Company** | **Position** | **Score** | **Location** | **Experience** | **First Published At** | **Apply** |\n"
        ++ "|-------|-------------|--------------|-----------|--------------|----------------|---------------------|-----------|\n"
        ++ String.join (data.jobs.enum.map fun p => fullIndexRow (p.1 + 1) p.2)
        ++ "\n---\n\n")
  ++ String.join (data.jobs.enum.map fun p => fullDetailSection (p.1 + 1) p.2)
  ++ processingBlock data.processing
  ++ backendMetadataBlock data.meta "Powered by Backend API - Real-time job matching"
  ++ "---\n\n"
  ++ "*Job Matcher v1.0 - Enhanced Backend Integration*"

/-- One row of the index table of `generateJobIndexTableMarkdown`. -/
def tableIndexRow (rank : Nat) (job : NormalizedJob) : String :=
  "| " ++ toString rank ++ " | 🏢 **" ++ job.company ++ "** | " ++ job.title ++ " | "
  ++ matchColor job.matchPercent ++ " **" ++ toString job.matchPercent ++ "%** | "
  ++ job.location ++ " | " ++ job.experience ++ " | " ++ job.firstPublishedAt
  ++ " | [🚀 **Apply Now**](" ++ job.url ++ ") |\n"

/-- Translation of `generateJobIndexTableMarkdown` (the table-only document). -/
def generateJobIndexTableMarkdown (data : TransformedData) : String :=
  "# 🎯 Job Opportunities to Apply\n\n"
  ++ searchSummaryBlock data.meta
  ++ (if data.jobs.isEmpty then ""
      else "## 📋 Jobs Ready to Apply\n\n"
        ++ "| **#** | **Company** | **Position** | **Score** | **Location** | **Experience** | **First Published At** | **Apply** |\n"
        ++ "|-------|-------------|--------------|-----------|--------------|----------------|---------------------|-----------|\n"
        ++ String.join (data.jobs.enum.map fun p => tableIndexRow (p.1 + 1) p.2)
        ++ "\n")
  ++ processingBlock data.processing
  ++ backendMetadataBlock data.meta "Powered by Backend API - Ready-to-Apply Job Index"
  ++ "---\n\n"
  ++ "*Job Index Table v1.0 - Quick Apply Mode*"

/-- Translation of `generateNoMatchesMarkdown` (the fixed zero-matches document). -/
def generateNoMatchesMarkdown (data : TransformedData) : String :=
  "# 🔍 No Job Matches Found\n\n"
  ++ "Unfortunately, no job opportunities match your current search criteria.\n\n"
  ++ (match data.meta.quota with
      | some q => "**API Requests Remaining:** " ++ toString q ++ "\n\n"
      | none => "")
  ++ (if data.meta.skills.isEmpty then ""
      else "## 🌟 Skills Detected in Your Resume\n\n"
        ++ String.intercalate ", " data.meta.skills ++ "\n\n")
  ++ "---\n\n"
  ++ "## ⚠️ Possible Issues\n\n"
  ++ "- Very specific location filters\n"
  ++ "- Narrow date range constraints\n"
  ++ "- Highly specialized skill requirements\n"
  ++ "- Resume optimization may be needed\n\n"
  ++ "## 💡 Troubleshooting Tips\n\n"
  ++ "- ✓ Expand to nearby locations\n"
  ++ "- ✓ Remove restrictive filters\n"
  ++ "- ✓ Try different keywords\n"
  ++ "- ✓ Consider related job titles\n"
  ++ "- ✓ Broaden your search criteria\n\n"
  ++ (match data.processing with
      | none => ""
      | some p =>
        "## 📊 Resume Processing Details\n\n"
        ++ "**File:** " ++ p.filename ++ "\n\n"
        ++ "**Processing Method:** " ++ p.method ++ "\n\n"
        ++ "**Enhancement Used:** " ++ (if p.enhanced then "✅ Enhanced" else "⚠️ Standard") ++ "\n\n"
        ++ (if jsTruthyNat p.originalLength && jsTruthyNat p.enhancedLength then
              "**Original Length:** " ++ toString (p.originalLength.getD 0) ++ " characters\n\n"
              ++ "**Enhanced Length:** " ++ toString (p.enhancedLength.getD 0) ++ " characters\n\n"
            else ""))
  ++ "## 🚀 Coming Soon: Auto-Apply Feature\n\n"
  ++ "We're developing an exciting new feature that will allow you to:\n\n"
  ++ "- ✨ Apply to multiple opportunities with one click when new matches are found\n"
  ++ "- 🤖 AI-powered application templates\n"
  ++ "- 📝 Customized cover letters\n"
  ++ "- ⚡ Automated application submission\n\n"
  ++ "*Feature currently in development*\n\n"
  ++ "---\n\n"
  ++ "*Job Matcher v1.0 - Powered by MCP Server*"

/-- The Markdown-content selection of `formatMarkdownResponse` (the full-mode
tool): the surrounding JSON artifact envelope carries this string as its
`content` field and is not itself under study. -/
def formatMarkdownContent (data : BackendData) (remainingQuota : Option Int) (nowMs : Int) : String :=
  let transformedData := transformJobData nowMs data remainingQuota
  if data.matchList.length == 0 then generateNoMatchesMarkdown transformedData
  else generateJobMatcherMarkdown transformedData

/-- The Markdown-content selection of `formatTableOnlyMarkdownResponse` (the
`match_jobs_to_apply` tool). -/
def formatTableOnlyMarkdownContent (data : BackendData) (remainingQuota : Option Int) (nowMs : Int) : String :=
  let transformedData := transformJobData nowMs data remainingQuota
  if data.matchList.length == 0 then generateNoMatchesMarkdown transformedData
  else generateJobIndexTableMarkdown transformedData

/-- The node limiter's session invariant along a chronological trace: the
recorded timestamps are sorted, bounded by `b`, and whenever any are recorded
the stored `resetTime` is the last (most recent) of them plus the window. -/
def GoodSession (w : Int) (sid : String) (b : Int) (st : RLState) : Prop :=
  ∀ u, st sid = some u →
    u.requests.Sorted (· ≤ ·) ∧ (∀ x ∈ u.requests, x ≤ b) ∧
    ∀ t, u.requests.getLast? = some t → u.resetTime = t + w

/-! ### Concrete inputs used by counterexamples and witnesses -/

/-- An invalid argument object: an empty `resume_text` fails validation. -/
def c1Args : Args := { resume_text := some "" }

/-- A limiter state in which the stdio session has exhausted a limit of 1. -/
def c1State : RLState := RateLimiter.run 1 60000 getSessionId [0] emptyRL

/-- A Node-limiter state after two allowed requests (limit 2) at 0 and 1000. -/
def c2NodeState : RLState := RateLimiter.run 2 60000 "s" [0, 1000] emptyRL

/-- A Workers-limiter state whose session `sess` has three in-window
timestamps. -/
def c2WorkerState : Workers.WState :=
  fun s => if s = "sess" then some [5, 3, 10] else none

/-- A resume text of 508 characters, 10 whitespace-delimited words, and no
21-run of any single character, whose whitespace-collapsed form has only 28
characters. -/
def c4BadResume : String :=
  "experience a b c d e f g h i" ++ String.join (List.replicate 240 " \t")

/-- A resume text of 549 characters that passes every length/content check. -/
def c4GoodResume : String :=
  String.intercalate " " (List.replicate 50 "experience")

/-- A resume text of 15001 characters. -/
def c4LongResume : String := String.mk (List.replicate 15001 'a')

/-- A `chunk_text` whose skills line carries a 50-character item, which
`extractRequiredSkills` silently drops. -/
def c7Chunk : String :=
  "Required Skills: Python, " ++ String.mk (List.replicate 50 'a')

/-! ## Theorems -/



theorem sessionRequests_updateRL (st : RLState) (sid : String) (u : UserData) :
    sessionRequests (updateRL st sid u) sid = u.requests := by
  simp [sessionRequests, updateRL]

theorem updateRL_other (st : RLState) (sid sid2 : String) (u : UserData) (h : sid2 ≠ sid) :
    updateRL st sid u sid2 = st sid2 := by
  simp [updateRL, h]

theorem cleaned_requests_eq (w : Int) (st : RLState) (sid : String) (now : Int) :
    (RateLimiter.cleanOldRequests w (RateLimiter.getUserData w st sid now) now).requests
      = (sessionRequests st sid).filter fun t => decide (now - w < t) := by
  unfold RateLimiter.cleanOldRequests RateLimiter.getUserData sessionRequests
  cases st sid <;> rfl

theorem checkLimit_requests (lim : Nat) (w : Int) (st : RLState) (sid : String) (now : Int) :
    sessionRequests ((RateLimiter.checkLimit lim w st sid now).2) sid =
      (if lim ≤ ((sessionRequests st sid).filter fun t => decide (now - w < t)).length
       then (sessionRequests st sid).filter fun t => decide (now - w < t)
       else ((sessionRequests st sid).filter fun t => decide (now - w < t)) ++ [now]) := by
  simp only [RateLimiter.checkLimit]
  split <;> rename_i hc <;> rw [sessionRequests_updateRL] <;>
    rw [cleaned_requests_eq] at hc ⊢ <;> simp [hc]

theorem checkLimit_allowed (lim : Nat) (w : Int) (st : RLState) (sid : String) (now : Int) :
    (RateLimiter.checkLimit lim w st sid now).1.allowed =
      decide (((sessionRequests st sid).filter fun t => decide (now - w < t)).length < lim) := by
  simp only [RateLimiter.checkLimit]
  split <;> rename_i hc <;> rw [cleaned_requests_eq] at hc <;> simp [hc] <;> omega

theorem checkLimit_denied_remaining (lim : Nat) (w : Int) (st : RLState) (sid : String) (now : Int)
    (h : (RateLimiter.checkLimit lim w st sid now).1.allowed = false) :
    (RateLimiter.checkLimit lim w st sid now).1.remaining = 0 := by
  simp only [RateLimiter.checkLimit] at *
  split at h <;> simp_all [RateLimiter.checkLimit]

theorem checkLimit_other_session (lim : Nat) (w : Int) (st : RLState) (sid sid2 : String)
    (now : Int) (h : sid2 ≠ sid) :
    (RateLimiter.checkLimit lim w st sid now).2 sid2 = st sid2 := by
  simp only [RateLimiter.checkLimit]
  split <;> simp [updateRL, h]

theorem checkLimit_congr (lim : Nat) (w : Int) (st st' : RLState) (sid : String) (now : Int)
    (h : st sid = st' sid) :
    (RateLimiter.checkLimit lim w st sid now).1 = (RateLimiter.checkLimit lim w st' sid now).1 := by
  unfold RateLimiter.checkLimit RateLimiter.getUserData
  rw [h]
  split <;> (dsimp only; split <;> rfl)

/-! ### C1 — ordering of the per-call pipeline -/

/-- C1, counterexample.  On the stdio transport, a request whose arguments
are invalid (empty `resume_text`) *and* whose session is over the limit is
answered with the rate-limit document, not the validation-error document: the
handlers check the rate limit before validating. -/
theorem C1_counterexample_rateLimitFirst :
    (validateInputs 2025 c1Args).valid = false ∧
    (handleMatchResumeCall 1 60000 2025 c1State c1Args 1000).1.isRateLimited = true ∧
    (handleMatchResumeCall 1 60000 2025 c1State c1Args 1000).1.isValidationError = false := by
  refine ⟨by decide, by decide, by decide⟩

/-- C1 (amended).  Each handler resolves the session id, then checks the
rate limit, then validates, then calls the backend: the outcome is the
rate-limit document exactly when the limiter denies (also for invalid
arguments), the validation-error document exactly when the limiter allows and
validation fails, and the backend is called exactly when both checks pass —
so a request failing either check performs no backend call. -/
theorem C1_pipeline_order :
    (∀ (lim : Nat) (w currentYear : Int) (st : RLState) (args : Args) (now : Int),
      (handleMatchResumeCall lim w currentYear st args now).1.isRateLimited
          = !(RateLimiter.checkLimit lim w st getSessionId now).1.allowed ∧
      (handleMatchResumeCall lim w currentYear st args now).1.isValidationError
          = ((RateLimiter.checkLimit lim w st getSessionId now).1.allowed
              && !(validateInputs currentYear args).valid) ∧
      (handleMatchResumeCall lim w currentYear st args now).1.isBackendCalled
          = ((RateLimiter.checkLimit lim w st getSessionId now).1.allowed
              && (validateInputs currentYear args).valid)) ∧
    (∀ (lim : Nat) (currentYear : Int) (st : Workers.WState) (args : Args)
        (sessionId : String) (now : Int),
      (Workers.handleMatchResumeCall lim currentYear st args sessionId now).1.isRateLimited
          = !(Workers.checkLimit lim st sessionId now).1.allowed ∧
      (Workers.handleMatchResumeCall lim currentYear st args sessionId now).1.isValidationError
          = ((Workers.checkLimit lim st sessionId now).1.allowed
              && !(validateInputs currentYear args).valid) ∧
      (Workers.handleMatchResumeCall lim currentYear st args sessionId now).1.isBackendCalled
          = ((Workers.checkLimit lim st sessionId now).1.allowed
              && (validateInputs currentYear args).valid)) := by
  constructor
  · intro lim w currentYear st args now
    unfold handleMatchResumeCall
    cases hA : (RateLimiter.checkLimit lim w st getSessionId now).1.allowed <;>
      cases hV : (validateInputs currentYear args).valid <;>
        simp [hA, hV, Outcome.isRateLimited, Outcome.isValidationError, Outcome.isBackendCalled]
  · intro lim currentYear st args sessionId now
    unfold Workers.handleMatchResumeCall
    cases hA : (Workers.checkLimit lim st sessionId now).1.allowed <;>
      cases hV : (validateInputs currentYear args).valid <;>
        simp [hA, hV, Outcome.isRateLimited, Outcome.isValidationError, Outcome.isBackendCalled]

/-! ### C6 — match percentage and banding -/

/-- C6.  The transformed match percentage is `round(similarity_score *
100)` — in particular `0.873 ↦ 87` — and the colored indicator of the rendered
index table is banded at 70 (high/green) and 40 (medium/yellow), with low
(orange) below. -/
theorem C6_match_percent_banding :
    (∀ (nowMs : Int) (job : JobMatch) (index : Nat),
      (transformJob nowMs job index).matchPercent = jsRound ((job.similarity_score.getD 0) * 100)) ∧
    (∀ (nowMs : Int) (index : Nat),
      (transformJob nowMs { similarity_score := some (873 / 1000) } index).matchPercent = 87) ∧
    (∀ m : Int,
      (70 ≤ m → matchColor m = "🟢") ∧
      (40 ≤ m → m < 70 → matchColor m = "🟡") ∧
      (m < 40 → matchColor m = "🟠")) := by
  refine ⟨fun _ _ _ => rfl, fun _ _ => ?_, fun m => ?_⟩
  · show jsRound ((873 / 1000 : ℚ) * 100) = 87
    unfold jsRound
    norm_num
  · refine ⟨fun h => ?_, fun h1 h2 => ?_, fun h => ?_⟩ <;>
      unfold matchColor <;> split_ifs <;> first | rfl | omega

/-- Witness for `C6_match_percent_banding`: the banding at 87, 55 and 12. -/
theorem C6_match_percent_banding_witness :
    matchColor 87 = "🟢" ∧ matchColor 55 = "🟡" ∧ matchColor 12 = "🟠" :=
  ⟨(C6_match_percent_banding.2.2 87).1 (by decide),
   (C6_match_percent_banding.2.2 55).2.1 (by decide) (by decide),
   (C6_match_percent_banding.2.2 12).2.2 (by decide)⟩

/-! ### C8 — relative-date labels -/

/-- C8.  `formatDate` maps a missing/empty `first_published` to
`Recently posted` and a parseable one to the banded relative labels, but an
unparsable non-empty value falls through every NaN comparison to
`toLocaleDateString()`, which renders the string `"Invalid Date"` — not the
`Recently posted` that the dead `catch` branch was meant to produce. -/
theorem C8_formatDate_invalid_date :
    (∀ nowMs : Int, formatDate (some "not-a-date") nowMs = .localeDate none) ∧
    renderDateLabel (.localeDate none) = "Invalid Date" ∧
    DateLabel.localeDate none ≠ DateLabel.recentlyPosted ∧
    (∀ nowMs : Int, formatDate none nowMs = .recentlyPosted) ∧
    (∀ nowMs : Int, formatDate (some "") nowMs = .recentlyPosted) ∧
    (formatDate (some "2020-01-01") (daysFromCivil 2020 1 1 * msPerDay) = .today ∧
     formatDate (some "2020-01-01") (daysFromCivil 2020 1 1 * msPerDay + 1 * 86400000) = .yesterday ∧
     formatDate (some "2020-01-01") (daysFromCivil 2020 1 1 * msPerDay + 3 * 86400000) = .daysAgo 3 ∧
     formatDate (some "2020-01-01") (daysFromCivil 2020 1 1 * msPerDay + 10 * 86400000) = .weeksAgo 1 ∧
     formatDate (some "2020-01-01") (daysFromCivil 2020 1 1 * msPerDay + 45 * 86400000) = .monthsAgo 1 ∧
     formatDate (some "2020-01-01") (daysFromCivil 2020 1 1 * msPerDay + 400 * 86400000)
       = .localeDate (some (daysFromCivil 2020 1 1 * msPerDay))) := by
  refine ⟨fun _ => rfl, rfl, by decide, fun _ => rfl, fun _ => rfl,
    by decide, by decide, by decide, by decide, by decide, by decide⟩

/-! ### C9 — the zero-matches document -/

/-- C9.  With zero matches, the full-mode and table-only formatters select
the same fixed no-matches document and produce identical content strings. -/
theorem C9_no_matches_document :
    ∀ (tm pg tp : Nat) (hm : Bool) (es : List String) (ue : Option String)
      (rp : Option ResumeProcessing) (kw : Option String) (quota : Option Int) (nowMs : Int),
      formatMarkdownContent
          { matchList := [], total_matches := tm, page := pg, total_pages := tp, has_more := hm,
            extracted_skills := es, user_experience := ue, resume_processing := rp, keywords := kw }
          quota nowMs
        = formatTableOnlyMarkdownContent
            { matchList := [], total_matches := tm, page := pg, total_pages := tp, has_more := hm,
              extracted_skills := es, user_experience := ue, resume_processing := rp, keywords := kw }
            quota nowMs ∧
      formatMarkdownContent
          { matchList := [], total_matches := tm, page := pg, total_pages := tp, has_more := hm,
            extracted_skills := es, user_experience := ue, resume_processing := rp, keywords := kw }
          quota nowMs
        = generateNoMatchesMarkdown (transformJobData nowMs
            { matchList := [], total_matches := tm, page := pg, total_pages := tp, has_more := hm,
              extracted_skills := es, user_experience := ue, resume_processing := rp, keywords := kw }
            quota) := by
  intro tm pg tp hm es ue rp kw quota nowMs
  exact ⟨rfl, rfl⟩

/-! ### C10 — the worker rebuilds its limiter on every request -/

/-- C10.  The worker's `fetch` constructs a fresh server (hence an empty
limiter map) per invocation, so the request's single `checkLimit` call sees an
empty history: it always allows with `remaining = limit - 1`, and the
rate-limit branch of the worker handler is unreachable. -/
theorem C10_worker_fresh_limiter :
    ∀ (lim : Nat) (currentYear : Int) (args : Args) (sessionId : String) (now : Int),
      1 ≤ lim →
      (Workers.checkLimit lim Workers.emptyW sessionId now).1.allowed = true ∧
      (Workers.checkLimit lim Workers.emptyW sessionId now).1.remaining = (lim : Int) - 1 ∧
      (Workers.fetchToolCall lim currentYear args sessionId now).1.isRateLimited = false := by
  intro lim currentYear args sessionId now hlim
  have hck : Workers.checkLimit lim Workers.emptyW sessionId now
      = (⟨true, (lim : Int) - 1, now + 60000, lim⟩,
         fun s => if s = sessionId then some [now] else Workers.emptyW s) := by
    unfold Workers.checkLimit Workers.emptyW
    simp
    omega
  refine ⟨by rw [hck], by rw [hck], ?_⟩
  unfold Workers.fetchToolCall Workers.handleMatchResumeCall
  rw [hck]
  simp only [Bool.not_true]
  cases hV : (validateInputs currentYear args).valid <;>
    simp [hV, Outcome.isRateLimited, Outcome.isBackendCalled, Outcome.isValidationError]

/-- Witness for `C10_worker_fresh_limiter` at the default limit of 10. -/
theorem C10_worker_fresh_limiter_witness :
    (Workers.checkLimit 10 Workers.emptyW "worker-client" 0).1.allowed = true ∧
    (Workers.checkLimit 10 Workers.emptyW "worker-client" 0).1.remaining = 9 ∧
    (Workers.fetchToolCall 10 2025 {} "worker-client" 0).1.isRateLimited = false :=
  C10_worker_fresh_limiter 10 2025 {} "worker-client" 0 (by decide)

/-! ### C2 — the reset time reported on denial -/

/-- Translation of `List.foldl min a l` is a lower bound of `a :: l` attained on it. -/
theorem jsMinList_fold (l : List Int) : ∀ a : Int,
    l.foldl min a ≤ a ∧ (∀ x ∈ l, l.foldl min a ≤ x) ∧
      (l.foldl min a = a ∨ l.foldl min a ∈ l) := by
  induction l with
  | nil => intro a; exact ⟨le_refl a, by simp, Or.inl rfl⟩
  | cons b t ih =>
    intro a
    obtain ⟨h1, h2, h3⟩ := ih (min a b)
    simp only [List.foldl_cons]
    refine ⟨le_trans h1 (min_le_left a b), ?_, ?_⟩
    · intro x hx
      rcases List.mem_cons.mp hx with hxb | hxt
      · rw [hxb]
        exact le_trans h1 (min_le_right a b)
      · exact h2 x hxt
    · rcases h3 with h | h
      · rcases min_choice a b with hc | hc
        · exact Or.inl (h.trans hc)
        · exact Or.inr (List.mem_cons.mpr (Or.inl (h.trans hc)))
      · exact Or.inr (List.mem_cons_of_mem _ h)

/-- Translation of `Math.min(...l)` of a non-empty list is its least element. -/
theorem jsMinList_mem_le (l : List Int) (h : l ≠ []) :
    Workers.jsMinList l ∈ l ∧ ∀ x ∈ l, Workers.jsMinList l ≤ x := by
  cases l with
  | nil => exact absurd rfl h
  | cons a t =>
    obtain ⟨h1, h2, h3⟩ := jsMinList_fold t a
    refine ⟨?_, ?_⟩
    · unfold Workers.jsMinList
      rcases h3 with hh | hh
      · exact List.mem_cons.mpr (Or.inl hh)
      · exact List.mem_cons_of_mem _ hh
    · intro x hx
      unfold Workers.jsMinList
      rcases List.mem_cons.mp hx with rfl | hx
      · exact h1
      · exact h2 x hx

/-- The session record stored by one `checkLimit` call. -/
theorem checkLimit_post (lim : Nat) (w : Int) (st : RLState) (sid : String) (now : Int) :
    (RateLimiter.checkLimit lim w st sid now).2 sid =
      some (let u := RateLimiter.getUserData w st sid now
            let f := u.requests.filter fun t => decide (now - w < t)
            if lim ≤ f.length then ⟨f, if f.isEmpty then now + w else u.resetTime⟩
            else ⟨f ++ [now], now + w⟩) := by
  simp only [RateLimiter.checkLimit, RateLimiter.cleanOldRequests]
  split <;> rename_i hc <;> simp only [updateRL, if_pos rfl] <;> simp_all

/-- The reset time reported on denial is the (possibly updated) stored one. -/
theorem checkLimit_denied_resetTime (lim : Nat) (w : Int) (st : RLState) (sid : String) (now : Int)
    (h : (RateLimiter.checkLimit lim w st sid now).1.allowed = false) :
    (RateLimiter.checkLimit lim w st sid now).1.resetTime =
      (RateLimiter.cleanOldRequests w (RateLimiter.getUserData w st sid now) now).resetTime := by
  simp only [RateLimiter.checkLimit] at *
  split at h <;> simp_all [RateLimiter.checkLimit]

/-- For an upward-closed predicate, filtering a sorted list keeps its last
element (when anything survives at all). -/
theorem getLast?_filter_sorted (p : Int → Bool)
    (hmono : ∀ x y : Int, x ≤ y → p x = true → p y = true) :
    ∀ (l : List Int), l.Sorted (· ≤ ·) → l.filter p ≠ [] →
      (l.filter p).getLast? = l.getLast? := by
  intro l
  induction l with
  | nil => intro _ h; simp at h
  | cons a l ih =>
    intro hs hne
    obtain ⟨ha, hs'⟩ := List.sorted_cons.mp hs
    by_cases hpa : p a = true
    · have hfl : l.filter p = l := List.filter_eq_self.mpr fun x hx => hmono a x (ha x hx) hpa
      rw [List.filter_cons_of_pos hpa, hfl]
    · rw [List.filter_cons_of_neg (by simpa using hpa)] at hne ⊢
      have hlne : l ≠ [] := by rintro rfl; simp at hne
      rw [ih hs' hne]
      cases l with
      | nil => exact absurd rfl hlne
      | cons b l => rw [List.getLast?_cons_cons]

/-- The record produced by pruning (and possibly extending) a good session
record satisfies the invariant rebased at the call time. -/
theorem post_record_good (lim : Nat) (w now : Int) (u : UserData)
    (hsort : u.requests.Sorted (· ≤ ·)) (hbound : ∀ x ∈ u.requests, x ≤ now)
    (hreset : ∀ t, u.requests.getLast? = some t → u.resetTime = t + w) :
    let f := u.requests.filter fun t => decide (now - w < t)
    let R : UserData :=
      if lim ≤ f.length then ⟨f, if f.isEmpty then now + w else u.resetTime⟩
      else ⟨f ++ [now], now + w⟩
    R.requests.Sorted (· ≤ ·) ∧ (∀ x ∈ R.requests, x ≤ now) ∧
      ∀ t, R.requests.getLast? = some t → R.resetTime = t + w := by
  intro f R
  have hmono : ∀ x y : Int, x ≤ y → decide (now - w < x) = true → decide (now - w < y) = true := by
    intro x y hxy hx
    simp only [decide_eq_true_eq] at *
    omega
  have hfsort : f.Sorted (· ≤ ·) := hsort.filter _
  have hfbound : ∀ x ∈ f, x ≤ now := fun x hx => hbound x (List.mem_of_mem_filter hx)
  by_cases hc : lim ≤ f.length
  · have hR : R = ⟨f, if f.isEmpty then now + w else u.resetTime⟩ := if_pos hc
    rw [hR]
    refine ⟨hfsort, hfbound, ?_⟩
    intro t ht
    have hfne : f ≠ [] := by
      rintro h0
      rw [h0] at ht
      simp at ht
    have hlast : f.getLast? = u.requests.getLast? :=
      getLast?_filter_sorted _ hmono u.requests hsort hfne
    simp only [List.isEmpty_eq_true]
    rw [if_neg hfne]
    exact hreset t (hlast ▸ ht)
  · have hR : R = ⟨f ++ [now], now + w⟩ := if_neg hc
    rw [hR]
    refine ⟨?_, ?_, ?_⟩
    · refine List.pairwise_append.mpr ⟨hfsort, List.sorted_singleton now, ?_⟩
      intro x hx y hy
      rw [List.mem_singleton.mp hy]
      exact hfbound x hx
    · intro x hx
      rcases List.mem_append.mp hx with hx | hx
      · exact hfbound x hx
      · rw [List.mem_singleton.mp hx]
    · intro t ht
      rw [List.getLast?_concat] at ht
      cases ht
      rfl

/-- One `checkLimit` call preserves the session invariant, rebasing its bound
at the call time. -/
theorem checkLimit_good (lim : Nat) (w : Int) (sid : String) (st : RLState) (now b : Int)
    (hb : b ≤ now) (hgood : GoodSession w sid b st) :
    GoodSession w sid now ((RateLimiter.checkLimit lim w st sid now).2) := by
  intro u' hu'
  rw [checkLimit_post] at hu'
  obtain rfl := Option.some.inj hu'
  have hufacts : (RateLimiter.getUserData w st sid now).requests.Sorted (· ≤ ·) ∧
      (∀ x ∈ (RateLimiter.getUserData w st sid now).requests, x ≤ now) ∧
      ∀ t, (RateLimiter.getUserData w st sid now).requests.getLast? = some t →
        (RateLimiter.getUserData w st sid now).resetTime = t + w := by
    unfold RateLimiter.getUserData
    cases h : st sid with
    | none => simp
    | some u0 =>
      obtain ⟨h1, h2, h3⟩ := hgood u0 h
      exact ⟨h1, fun x hx => le_trans (h2 x hx) hb, h3⟩
  exact post_record_good lim w now _ hufacts.1 hufacts.2.1 hufacts.2.2

/-- The session invariant holds after any chronological sequence of calls. -/
theorem run_good (lim : Nat) (w : Int) (sid : String) :
    ∀ (ts : List Int) (st : RLState) (b : Int),
      ts.Sorted (· ≤ ·) → (∀ t ∈ ts, b ≤ t) → GoodSession w sid b st →
      GoodSession w sid (ts.getLastD b) (RateLimiter.run lim w sid ts st) := by
  intro ts
  induction ts with
  | nil => intro st b _ _ hg; exact hg
  | cons t ts ih =>
    intro st b hsort hlb hg
    obtain ⟨hhead, hsort'⟩ := List.sorted_cons.mp hsort
    have h1 : GoodSession w sid t ((RateLimiter.checkLimit lim w st sid t).2) :=
      checkLimit_good lim w sid st t b (hlb t (List.mem_cons_self _ _)) hg
    have h2 := ih ((RateLimiter.checkLimit lim w st sid t).2) t hsort' hhead h1
    rw [List.getLastD_cons]
    exact h2

/-- C2 (amended).  On denial, the edge-worker limiter reports `resetTime =
oldestInWindowRequest + window` exactly as the claim states; the Node limiter
instead reports the stored session `resetTime`, which equals the *most recent*
recorded request plus the window, for any session history produced by a
chronological sequence of `checkLimit` calls. -/
theorem C2_denial_resetTime :
    (∀ (lim : Nat) (st : Workers.WState) (sid : String) (now : Int),
      1 ≤ lim →
      (Workers.checkLimit lim st sid now).1.allowed = false →
      ((Workers.checkLimit lim st sid now).1.resetTime =
          Workers.jsMinList (((st sid).getD []).filter fun t => decide (now - 60000 < t)) + 60000 ∧
        Workers.jsMinList (((st sid).getD []).filter fun t => decide (now - 60000 < t))
          ∈ ((st sid).getD []).filter (fun t => decide (now - 60000 < t)) ∧
        ∀ x ∈ ((st sid).getD []).filter (fun t => decide (now - 60000 < t)),
          Workers.jsMinList (((st sid).getD []).filter fun t => decide (now - 60000 < t)) ≤ x)) ∧
    (∀ (lim : Nat) (w : Int) (sid : String) (ts : List Int) (tdeny : Int) (st0 : RLState),
      st0 sid = none → 1 ≤ lim → (ts ++ [tdeny]).Sorted (· ≤ ·) →
      (RateLimiter.checkLimit lim w (RateLimiter.run lim w sid ts st0) sid tdeny).1.allowed = false →
      ∃ t, (sessionRequests
              ((RateLimiter.checkLimit lim w (RateLimiter.run lim w sid ts st0) sid tdeny).2) sid).getLast?
            = some t ∧
        (RateLimiter.checkLimit lim w (RateLimiter.run lim w sid ts st0) sid tdeny).1.resetTime
          = t + w) := by
  constructor
  · intro lim st sid now hlim hdeny
    by_cases hc : lim ≤ (((st sid).getD []).filter fun t => decide (now - 60000 < t)).length
    · have hne : ((st sid).getD []).filter (fun t => decide (now - 60000 < t)) ≠ [] := by
        intro h0
        rw [h0] at hc
        simp only [List.length_nil, Nat.le_zero] at hc
        omega
      obtain ⟨hmem, hle⟩ := jsMinList_mem_le _ hne
      refine ⟨?_, hmem, hle⟩
      unfold Workers.checkLimit
      simp only [if_pos hc]
    · exfalso
      unfold Workers.checkLimit at hdeny
      simp only [if_neg hc] at hdeny
      exact Bool.noConfusion hdeny
  · intro lim w sid ts tdeny st0 h0 hlim hsort hdeny
    obtain ⟨hts, _, hbnd⟩ := List.pairwise_append.mp hsort
    have hgood0 : GoodSession w sid (ts.headD tdeny) st0 := by
      intro u hu
      rw [h0] at hu
      cases hu
    have hlb : ∀ t ∈ ts, ts.headD tdeny ≤ t := by
      cases ts with
      | nil => intro t ht; simp at ht
      | cons a l =>
        intro t ht
        rcases List.mem_cons.mp ht with rfl | ht
        · simp
        · exact (List.sorted_cons.mp hts).1 t ht
    have hgood := run_good lim w sid ts st0 (ts.headD tdeny) hts hlb hgood0
    have hBle : ts.getLastD (ts.headD tdeny) ≤ tdeny := by
      cases ts with
      | nil => simp
      | cons a l =>
        rw [List.getLastD_eq_getLast?, List.getLast?_eq_getLast_of_ne_nil (List.cons_ne_nil a l)]
        simp only [Option.getD_some]
        exact hbnd _ (List.getLast_mem _) tdeny (by simp)
    have hgood' : GoodSession w sid tdeny (RateLimiter.run lim w sid ts st0) := by
      intro u hu
      obtain ⟨hs, hb, hr⟩ := hgood u hu
      exact ⟨hs, fun x hx => le_trans (hb x hx) hBle, hr⟩
    have hall := checkLimit_allowed lim w (RateLimiter.run lim w sid ts st0) sid tdeny
    rw [hdeny] at hall
    have hlen : lim ≤ ((sessionRequests (RateLimiter.run lim w sid ts st0) sid).filter
        fun t => decide (tdeny - w < t)).length := by
      have h1 := hall.symm
      simp only [decide_eq_false_iff_not, not_lt] at h1
      exact h1
    have hfne : ((sessionRequests (RateLimiter.run lim w sid ts st0) sid).filter
        fun t => decide (tdeny - w < t)) ≠ [] := by
      intro h0'
      rw [h0'] at hlen
      simp only [List.length_nil, Nat.le_zero] at hlen
      omega
    obtain ⟨u, hu⟩ : ∃ u, RateLimiter.run lim w sid ts st0 sid = some u := by
      cases hu : RateLimiter.run lim w sid ts st0 sid with
      | none =>
        exfalso
        apply hfne
        simp [sessionRequests, hu]
      | some u => exact ⟨u, rfl⟩
    obtain ⟨hs, hb, hr⟩ := hgood' u hu
    have hreq : sessionRequests (RateLimiter.run lim w sid ts st0) sid = u.requests := by
      simp [sessionRequests, hu]
    rw [hreq] at hfne hlen
    have hmono : ∀ x y : Int, x ≤ y → decide (tdeny - w < x) = true → decide (tdeny - w < y) = true := by
      intro x y hxy hx
      simp only [decide_eq_true_eq] at *
      omega
    have hlast : ((u.requests.filter fun t => decide (tdeny - w < t)).getLast?) = u.requests.getLast? :=
      getLast?_filter_sorted _ hmono u.requests hs hfne
    have hune : u.requests ≠ [] := by
      rintro h0'
      rw [h0'] at hfne
      simp at hfne
    have hpost := checkLimit_requests lim w (RateLimiter.run lim w sid ts st0) sid tdeny
    rw [hreq] at hpost
    simp only [if_pos hlen] at hpost
    refine ⟨u.requests.getLast hune, ?_, ?_⟩
    · rw [hpost, hlast, List.getLast?_eq_getLast_of_ne_nil hune]
    · have hrt := checkLimit_denied_resetTime lim w (RateLimiter.run lim w sid ts st0) sid tdeny hdeny
      rw [hrt]
      unfold RateLimiter.cleanOldRequests RateLimiter.getUserData
      rw [hu]
      simp only [List.isEmpty_eq_true]
      rw [if_neg hfne]
      exact hr _ (List.getLast?_eq_getLast_of_ne_nil hune)

/-- C2, counterexample.  In the Node limiter, after allowed requests at 0
and 1000 (limit 2, window 60000), the denial at 2000 reports `resetTime =
61000` — the most recent request plus the window — while both requests are
still inside the window and the oldest is 0, so the claimed
`oldestRequest + window` would be 60000. -/
theorem C2_counterexample_node_resetTime :
    (RateLimiter.checkLimit 2 60000 c2NodeState "s" 2000).1.allowed = false ∧
    (RateLimiter.checkLimit 2 60000 c2NodeState "s" 2000).1.resetTime = 61000 ∧
    ((sessionRequests c2NodeState "s").filter fun t => decide ((2000 : Int) - 60000 < t)) = [0, 1000] ∧
    ((0 : Int) + 60000 ≠ 61000) := by
  refine ⟨by decide, by decide, by decide, by decide⟩

/-- Witness for `C2_denial_resetTime`: a worker denial with history
`[5, 3, 10]` (limit 3) resets at `3 + 60000`, and the Node denial after
allowed requests at 0 and 1000 resets at the most recent request plus the
window. -/
theorem C2_denial_resetTime_witness :
    ((Workers.checkLimit 3 c2WorkerState "sess" 20).1.resetTime =
        Workers.jsMinList (((c2WorkerState "sess").getD []).filter
          fun t => decide ((20 : Int) - 60000 < t)) + 60000) ∧
    (∃ t, (sessionRequests
            ((RateLimiter.checkLimit 2 60000 (RateLimiter.run 2 60000 "s" [0, 1000] emptyRL) "s" 2000).2) "s").getLast?
          = some t ∧
      (RateLimiter.checkLimit 2 60000 (RateLimiter.run 2 60000 "s" [0, 1000] emptyRL) "s" 2000).1.resetTime
        = t + 60000) :=
  ⟨(C2_denial_resetTime.1 3 c2WorkerState "sess" 20 (by decide) (by decide)).1,
   C2_denial_resetTime.2 2 60000 "s" [0, 1000] 2000 emptyRL rfl (by decide) (by decide) (by decide)⟩

/-! ### C3 — sliding-window behaviour of the Node limiter -/

/-- Calls that all fall inside one trailing window are recorded verbatim, in
order, as long as the limit is not reached: running the calls of `ts` appends
them to the `pre` already recorded. -/
theorem run_within (lim : Nat) (w : Int) (sid : String) :
    ∀ (ts : List Int) (pre : List Int) (st : RLState),
      sessionRequests st sid = pre →
      pre.length + ts.length ≤ lim →
      (pre ++ ts).Pairwise (fun a b => b - w < a) →
      sessionRequests (RateLimiter.run lim w sid ts st) sid = pre ++ ts := by
  intro ts
  induction ts with
  | nil => intro pre st h _ _; simpa using h
  | cons t ts ih =>
    intro pre st hpre hlen hpw
    have hfilter : pre.filter (fun x => decide (t - w < x)) = pre := by
      apply List.filter_eq_self.mpr
      intro x hx
      have := (List.pairwise_append.mp hpw).2.2 x hx t (List.mem_cons_self _ _)
      simpa using this
    have hstep := checkLimit_requests lim w st sid t
    rw [hpre, hfilter] at hstep
    have hlt : ¬ lim ≤ pre.length := by
      simp only [List.length_cons] at hlen
      omega
    rw [if_neg hlt] at hstep
    have hpw' : ((pre ++ [t]) ++ ts).Pairwise (fun a b => b - w < a) := by
      rw [List.append_assoc]
      exact hpw
    have hlen' : (pre ++ [t]).length + ts.length ≤ lim := by
      rw [List.length_append]
      simp only [List.length_singleton]
      simp only [List.length_cons] at hlen
      omega
    have := ih (pre ++ [t]) ((RateLimiter.checkLimit lim w st sid t).2) hstep hlen' hpw'
    rw [show RateLimiter.run lim w sid (t :: ts) st
          = RateLimiter.run lim w sid ts ((RateLimiter.checkLimit lim w st sid t).2) from rfl, this,
        List.append_assoc]
    rfl

/-- C3.  The Node limiter is a true per-session sliding window: with limit
`N = lim`, after `N` calls inside one window the `(N+1)`-th call in that same
window is denied with `remaining = 0` and records nothing; once the time has
advanced past `firstCall + window`, the next call is allowed again; and a call
for one session neither rewrites another session's record nor changes the
result another session would get. -/
theorem C3_sliding_window :
    (∀ (lim : Nat) (w : Int) (sid : String) (t1 : Int) (rest : List Int) (tdeny tlater : Int)
       (st0 : RLState),
      st0 sid = none →
      (t1 :: rest).length = lim →
      ((t1 :: rest) ++ [tdeny]).Pairwise (fun a b => b - w < a) →
      t1 + w < tlater →
      ((RateLimiter.checkLimit lim w (RateLimiter.run lim w sid (t1 :: rest) st0) sid tdeny).1.allowed
          = false ∧
        (RateLimiter.checkLimit lim w (RateLimiter.run lim w sid (t1 :: rest) st0) sid tdeny).1.remaining
          = 0 ∧
        sessionRequests
            ((RateLimiter.checkLimit lim w (RateLimiter.run lim w sid (t1 :: rest) st0) sid tdeny).2) sid
          = t1 :: rest ∧
        (RateLimiter.checkLimit lim w
            ((RateLimiter.checkLimit lim w (RateLimiter.run lim w sid (t1 :: rest) st0) sid tdeny).2)
            sid tlater).1.allowed = true)) ∧
    (∀ (lim : Nat) (w : Int) (st : RLState) (sid sid2 : String) (now now2 : Int),
      sid2 ≠ sid →
      ((RateLimiter.checkLimit lim w st sid now).2) sid2 = st sid2 ∧
      (RateLimiter.checkLimit lim w ((RateLimiter.checkLimit lim w st sid now).2) sid2 now2).1
        = (RateLimiter.checkLimit lim w st sid2 now2).1) := by
  constructor
  · intro lim w sid t1 rest tdeny tlater st0 h0 hlen hpw hlater
    have hpwts : (t1 :: rest).Pairwise (fun a b => b - w < a) := (List.pairwise_append.mp hpw).1
    have hpre0 : sessionRequests st0 sid = [] := by simp [sessionRequests, h0]
    have hrun : sessionRequests (RateLimiter.run lim w sid (t1 :: rest) st0) sid = t1 :: rest := by
      have := run_within lim w sid (t1 :: rest) [] st0 hpre0 (by simp [hlen]) (by simpa using hpwts)
      simpa using this
    have hfilter : (t1 :: rest).filter (fun x => decide (tdeny - w < x)) = t1 :: rest := by
      apply List.filter_eq_self.mpr
      intro x hx
      have := (List.pairwise_append.mp hpw).2.2 x hx tdeny (by simp)
      simpa using this
    have hdeny : (RateLimiter.checkLimit lim w (RateLimiter.run lim w sid (t1 :: rest) st0)
        sid tdeny).1.allowed = false := by
      rw [checkLimit_allowed, hrun, hfilter, hlen]
      simp
    refine ⟨hdeny, checkLimit_denied_remaining _ _ _ _ _ hdeny, ?_, ?_⟩
    · rw [checkLimit_requests, hrun, hfilter, hlen, if_pos (le_refl lim)]
    · have hpost : sessionRequests
          ((RateLimiter.checkLimit lim w (RateLimiter.run lim w sid (t1 :: rest) st0) sid tdeny).2) sid
          = t1 :: rest := by
        rw [checkLimit_requests, hrun, hfilter, hlen, if_pos (le_refl lim)]
      have hflt : List.filter (fun t => decide (tlater - w < t)) (t1 :: rest)
          = List.filter (fun t => decide (tlater - w < t)) rest :=
        List.filter_cons_of_neg (by simp only [decide_eq_true_eq]; omega)
      rw [checkLimit_allowed, hpost, hflt]
      have h1 := List.length_filter_le (fun t => decide (tlater - w < t)) rest
      simp only [decide_eq_true_eq]
      simp only [List.length_cons] at hlen
      omega
  · intro lim w st sid sid2 now now2 hne
    refine ⟨checkLimit_other_session lim w st sid sid2 now hne, ?_⟩
    exact checkLimit_congr lim w _ st sid2 now2 (checkLimit_other_session lim w st sid sid2 now hne)

/-- Witness for `C3_sliding_window`: limit 2, window 60000, allowed calls at 0
and 1000, denial at 2000, renewed allowance at 60001, and independence of the
sessions `"s"` and `"other"`. -/
theorem C3_sliding_window_witness :
    ((RateLimiter.checkLimit 2 60000 (RateLimiter.run 2 60000 "s" [0, 1000] emptyRL) "s" 2000).1.allowed
        = false ∧
      (RateLimiter.checkLimit 2 60000 (RateLimiter.run 2 60000 "s" [0, 1000] emptyRL) "s" 2000).1.remaining
        = 0 ∧
      sessionRequests
          ((RateLimiter.checkLimit 2 60000 (RateLimiter.run 2 60000 "s" [0, 1000] emptyRL) "s" 2000).2) "s"
        = [0, 1000] ∧
      (RateLimiter.checkLimit 2 60000
          ((RateLimiter.checkLimit 2 60000 (RateLimiter.run 2 60000 "s" [0, 1000] emptyRL) "s" 2000).2)
          "s" 60001).1.allowed = true) ∧
    ((RateLimiter.checkLimit 2 60000 emptyRL "s" 0).2 "other" = emptyRL "other" ∧
      (RateLimiter.checkLimit 2 60000 ((RateLimiter.checkLimit 2 60000 emptyRL "s" 0).2) "other" 5).1
        = (RateLimiter.checkLimit 2 60000 emptyRL "other" 5).1) :=
  ⟨C3_sliding_window.1 2 60000 "s" 0 [1000] 2000 60001 emptyRL rfl rfl (by decide) (by decide),
   C3_sliding_window.2 2 60000 emptyRL "s" "other" 0 5 (by decide)⟩

/-! ### C4 — resume length and content checks -/

/-- A list containing anything is not `isEmpty`. -/
theorem isEmpty_false_of_mem {α : Type} {x : α} {l : List α} (h : x ∈ l) : l.isEmpty = false := by
  cases l with
  | nil => simp at h
  | cons a t => rfl

theorem validateInputs_valid_eq (currentYear : Int) (args : Args) :
    (validateInputs currentYear args).valid = (validateInputs currentYear args).errors.isEmpty := rfl

/-- C4, counterexample.  `c4BadResume` is inside the length bounds, has 10
whitespace-delimited words and no 21-run of any character, yet the content
check rejects it: its whitespace-collapsed form falls below the 500-character
minimum. -/
theorem C4_counterexample_whitespace_resume :
    500 ≤ jsLength c4BadResume ∧ jsLength c4BadResume ≤ 15000 ∧
    10 ≤ ((jsSplitWs c4BadResume).filter fun wd => 0 < jsLength wd).length ∧
    hasIdenticalRun c4BadResume = false ∧
    validateResumeText c4BadResume =
      ["Resume text contains insufficient content (too much whitespace)"] := by
  refine ⟨by decide, by decide, by decide, by decide, by decide⟩

/-- C4 (amended).  A provided resume text below 500 characters fails
`validateInputs` with the too-short message and one above 15000 with the
too-long message; a text within bounds whose *whitespace-collapsed* form still
reaches 500 characters, with at least 10 words and no 21-run matched by the
spam regex, passes the length and content checks with no errors. -/
theorem C4_resume_length_checks :
    (∀ (currentYear : Int) (args : Args) (s : String),
      args.resume_text = some s → s ≠ "" → jsLength s < 500 →
      "Resume text is too short. Minimum 500 characters required"
          ∈ (validateInputs currentYear args).errors ∧
        (validateInputs currentYear args).valid = false) ∧
    (∀ (currentYear : Int) (args : Args) (s : String),
      args.resume_text = some s → 15000 < jsLength s →
      "Resume text is too long. Maximum 15000 characters allowed"
          ∈ (validateInputs currentYear args).errors ∧
        (validateInputs currentYear args).valid = false) ∧
    (∀ s : String,
      500 ≤ jsLength s → jsLength s ≤ 15000 →
      500 ≤ jsLength (normalizedResume s) →
      10 ≤ resumeWordCount s →
      hasRepeatedChars s = false →
      validateResumeText s = []) := by
  refine ⟨?_, ?_, ?_⟩
  · intro currentYear args s hrt hne hlt
    have hmem : "Resume text is too short. Minimum 500 characters required"
        ∈ validateResumeText s := by
      unfold validateResumeText
      apply List.mem_append_left
      apply List.mem_append_left
      rw [if_pos (by simpa [MIN_RESUME_LENGTH] using hlt)]
      exact List.mem_singleton_self _
    have hmem' : "Resume text is too short. Minimum 500 characters required"
        ∈ (validateInputs currentYear args).errors := by
      unfold validateInputs
      simp only [hrt]
      rw [if_pos (by simpa using hne)]
      exact List.mem_append_left _ (List.mem_append_right _ hmem)
    exact ⟨hmem', by rw [validateInputs_valid_eq, isEmpty_false_of_mem hmem']⟩
  · intro currentYear args s hrt hgt
    have hne : s ≠ "" := by
      intro h
      rw [h] at hgt
      exact absurd hgt (by decide)
    have hmem : "Resume text is too long. Maximum 15000 characters allowed"
        ∈ validateResumeText s := by
      unfold validateResumeText
      apply List.mem_append_left
      apply List.mem_append_right
      rw [if_pos (by simpa [MAX_RESUME_LENGTH] using hgt)]
      exact List.mem_singleton_self _
    have hmem' : "Resume text is too long. Maximum 15000 characters allowed"
        ∈ (validateInputs currentYear args).errors := by
      unfold validateInputs
      simp only [hrt]
      rw [if_pos (by simpa using hne)]
      exact List.mem_append_left _ (List.mem_append_right _ hmem)
    exact ⟨hmem', by rw [validateInputs_valid_eq, isEmpty_false_of_mem hmem']⟩
  · intro s h1 h2 h3 h4 h5
    unfold validateResumeText validateMeaningfulContent
    rw [if_neg (by simp only [MIN_RESUME_LENGTH]; omega),
        if_neg (by simp only [MAX_RESUME_LENGTH]; omega),
        if_neg (by simp only [MIN_RESUME_LENGTH]; omega),
        if_neg (by simp [h5]),
        if_neg (by omega)]
    rfl

/-- Witness for `C4_resume_length_checks`: a 5-character resume triggers the
too-short message, a 15001-character one the too-long message, and
`c4GoodResume` (549 characters, 50 words) passes with no errors. -/
theorem C4_resume_length_checks_witness :
    ("Resume text is too short. Minimum 500 characters required"
        ∈ (validateInputs 2025 { resume_text := some "short" }).errors) ∧
    ("Resume text is too long. Maximum 15000 characters allowed"
        ∈ (validateInputs 2025 { resume_text := some c4LongResume }).errors) ∧
    validateResumeText c4GoodResume = [] :=
  ⟨(C4_resume_length_checks.1 2025 { resume_text := some "short" } "short" rfl (by decide)
      (by decide)).1,
   (C4_resume_length_checks.2.1 2025 { resume_text := some c4LongResume } c4LongResume rfl
      (by show 15000 < (List.replicate 15001 'a').length; rw [List.length_replicate]; omega)).1,
   C4_resume_length_checks.2.2 c4GoodResume (by decide) (by decide) (by decide) (by decide)
      (by decide)⟩

/-! ### C5 — the date-pair rules -/

theorem validateToolParameters_valid_eq (params : Args) :
    (validateToolParameters "match_resume" params).valid =
      (validateToolParameters "match_resume" params).errors.isEmpty := rfl

/-- C5.  Supplying exactly one of `start_date`/`end_date` fails the schema
validation with the corresponding "both required" message; a pair of parseable
dates with `start ≥ end` fails both the schema validation and `validateInputs`
with the ordering messages; and a parseable pair spanning more than 365 days
fails `validateInputs` with the range message. -/
theorem C5_date_pair_validation :
    (∀ params : Args,
      hasDateValue params.start_date = true → hasDateValue params.end_date = false →
      "When start_date is provided, end_date must also be provided to create a complete date range"
          ∈ (validateToolParameters "match_resume" params).errors ∧
        (validateToolParameters "match_resume" params).valid = false) ∧
    (∀ params : Args,
      hasDateValue params.end_date = true → hasDateValue params.start_date = false →
      "When end_date is provided, start_date must also be provided to create a complete date range"
          ∈ (validateToolParameters "match_resume" params).errors ∧
        (validateToolParameters "match_resume" params).valid = false) ∧
    (∀ (params : Args) (s e : String) (a b : Int) (currentYear : Int),
      params.start_date = some s → params.end_date = some e →
      hasDateValue params.start_date = true → hasDateValue params.end_date = true →
      jsDateParse s = some a → jsDateParse e = some b → b ≤ a →
      "start_date must be before end_date"
          ∈ (validateToolParameters "match_resume" params).errors ∧
        "Start date must be before end date" ∈ (validateInputs currentYear params).errors ∧
        (validateInputs currentYear params).valid = false) ∧
    (∀ (params : Args) (s e : String) (a b : Int) (currentYear : Int),
      params.start_date = some s → params.end_date = some e →
      hasDateValue params.start_date = true → hasDateValue params.end_date = true →
      jsDateParse s = some a → jsDateParse e = some b → 365 * msPerDay < b - a →
      "Date range is too long (maximum 1 year)" ∈ (validateInputs currentYear params).errors ∧
        (validateInputs currentYear params).valid = false) := by
  refine ⟨?_, ?_, ?_, ?_⟩
  · intro params hS hE
    have hmem : "When start_date is provided, end_date must also be provided to create a complete date range"
        ∈ (validateToolParameters "match_resume" params).errors := by
      unfold validateToolParameters
      rw [if_neg (by decide)]
      apply List.mem_append_left
      apply List.mem_append_right
      apply List.mem_append_left
      apply List.mem_append_left
      rw [if_pos (by rw [hS, hE]; rfl)]
      exact List.mem_singleton_self _
    exact ⟨hmem, by rw [validateToolParameters_valid_eq, isEmpty_false_of_mem hmem]⟩
  · intro params hE hS
    have hmem : "When end_date is provided, start_date must also be provided to create a complete date range"
        ∈ (validateToolParameters "match_resume" params).errors := by
      unfold validateToolParameters
      rw [if_neg (by decide)]
      apply List.mem_append_left
      apply List.mem_append_right
      apply List.mem_append_left
      apply List.mem_append_right
      rw [if_pos (by rw [hS, hE]; rfl)]
      exact List.mem_singleton_self _
    exact ⟨hmem, by rw [validateToolParameters_valid_eq, isEmpty_false_of_mem hmem]⟩
  · intro params s e a b currentYear hs he hS hE hpa hpb hba
    have hsne : s != "" := by
      rw [hs] at hS
      exact (Bool.and_eq_true _ _ |>.mp hS).1
    have hene : e != "" := by
      rw [he] at hE
      exact (Bool.and_eq_true _ _ |>.mp hE).1
    have hmem1 : "start_date must be before end_date"
        ∈ (validateToolParameters "match_resume" params).errors := by
      unfold validateToolParameters
      rw [if_neg (by decide)]
      apply List.mem_append_left
      apply List.mem_append_right
      apply List.mem_append_right
      rw [if_pos (by rw [hS, hE]; rfl), hs, he]
      simp only [Option.getD_some]
      rw [hpa, hpb]
      dsimp only
      rw [if_pos hba]
      exact List.mem_singleton_self _
    have hmem2 : "Start date must be before end date"
        ∈ validateDateRange s e := by
      unfold validateDateRange
      apply List.mem_append_left
      rw [hpa, hpb]
      dsimp only
      rw [if_pos hba]
      exact List.mem_singleton_self _
    have hmem2' : "Start date must be before end date"
        ∈ (validateInputs currentYear params).errors := by
      unfold validateInputs
      apply List.mem_append_right
      unfold validateOptionalParameters
      apply List.mem_append_left
      apply List.mem_append_left
      apply List.mem_append_right
      rw [hs, he]
      dsimp only
      rw [if_pos (by rw [hsne, hene]; rfl)]
      exact hmem2
    refine ⟨hmem1, hmem2', ?_⟩
    rw [validateInputs_valid_eq, isEmpty_false_of_mem hmem2']
  · intro params s e a b currentYear hs he hS hE hpa hpb hspan
    have hsne : s != "" := by
      rw [hs] at hS
      exact (Bool.and_eq_true _ _ |>.mp hS).1
    have hene : e != "" := by
      rw [he] at hE
      exact (Bool.and_eq_true _ _ |>.mp hE).1
    have hmem : "Date range is too long (maximum 1 year)"
        ∈ validateDateRange s e := by
      unfold validateDateRange
      apply List.mem_append_right
      rw [hpa, hpb]
      dsimp only
      rw [if_pos hspan]
      exact List.mem_singleton_self _
    have hmem' : "Date range is too long (maximum 1 year)"
        ∈ (validateInputs currentYear params).errors := by
      unfold validateInputs
      apply List.mem_append_right
      unfold validateOptionalParameters
      apply List.mem_append_left
      apply List.mem_append_left
      apply List.mem_append_right
      rw [hs, he]
      dsimp only
      rw [if_pos (by rw [hsne, hene]; rfl)]
      exact hmem
    exact ⟨hmem', by rw [validateInputs_valid_eq, isEmpty_false_of_mem hmem']⟩

/-- Witness for `C5_date_pair_validation`: a lone `start_date`, a reversed
pair, and a 517-day span. -/
theorem C5_date_pair_validation_witness :
    ("When start_date is provided, end_date must also be provided to create a complete date range"
        ∈ (validateToolParameters "match_resume" { resume_text := some "x", start_date := some "2025-01-15" }).errors) ∧
    ("start_date must be before end_date"
        ∈ (validateToolParameters "match_resume"
            { resume_text := some "x", start_date := some "2025-02-15", end_date := some "2025-01-15" }).errors) ∧
    ("Start date must be before end date"
        ∈ (validateInputs 2025
            { resume_text := some "x", start_date := some "2025-02-15", end_date := some "2025-01-15" }).errors) ∧
    ("Date range is too long (maximum 1 year)"
        ∈ (validateInputs 2025
            { resume_text := some "x", start_date := some "2024-01-01", end_date := some "2025-06-01" }).errors) :=
  ⟨(C5_date_pair_validation.1 { resume_text := some "x", start_date := some "2025-01-15" }
      (by decide) (by decide)).1,
   (C5_date_pair_validation.2.2.1
      { resume_text := some "x", start_date := some "2025-02-15", end_date := some "2025-01-15" }
      "2025-02-15" "2025-01-15" (jsDateParse "2025-02-15").get! (jsDateParse "2025-01-15").get! 2025
      rfl rfl (by decide) (by decide) (by decide) (by decide) (by decide)).1,
   (C5_date_pair_validation.2.2.1
      { resume_text := some "x", start_date := some "2025-02-15", end_date := some "2025-01-15" }
      "2025-02-15" "2025-01-15" (jsDateParse "2025-02-15").get! (jsDateParse "2025-01-15").get! 2025
      rfl rfl (by decide) (by decide) (by decide) (by decide) (by decide)).2.1,
   (C5_date_pair_validation.2.2.2
      { resume_text := some "x", start_date := some "2024-01-01", end_date := some "2025-06-01" }
      "2024-01-01" "2025-06-01" (jsDateParse "2024-01-01").get! (jsDateParse "2025-06-01").get! 2025
      rfl rfl (by decide) (by decide) (by decide) (by decide) (by decide)).1⟩

/-! ### C7 — the `chunk_text` extractions -/

/-- C7, counterexample.  `c7Chunk`'s skills line is `Python, aaaa…` (50
a's): the extraction drops the 50-character item, so it does not return "the
comma-separated items of the first 'Required Skills:' line, trimmed" as the
claim states. -/
theorem C7_counterexample_skills_filter :
    extractRequiredSkills (some c7Chunk) = ["Python"] ∧
    claimedRequiredSkills (some c7Chunk) = ["Python", String.mk (List.replicate 50 'a')] ∧
    extractRequiredSkills (some c7Chunk) ≠ claimedRequiredSkills (some c7Chunk) := by
  refine ⟨by decide, by decide, by decide⟩

/-- C7 (amended).  The skills extraction returns the comma-separated,
trimmed items of the first (case-insensitive) `Required Skills:` line with
empty items and items of 50+ characters dropped; the summary extraction splits
the `Job Summary:` line on `PointN:` markers when present and otherwise on
sentence boundaries, keeping only fragments longer than 10 characters, capped
at 5; both return `[]` (never an error — the functions are total) when their
marker is absent. -/
theorem C7_extractions :
    (∀ chunkText : Option String,
      extractRequiredSkills chunkText =
        (claimedRequiredSkills chunkText).filter fun sk => 0 < jsLength sk && jsLength sk < 50) ∧
    extractRequiredSkills (some "Intro. Required Skills: Python, SQL\nRest") = ["Python", "SQL"] ∧
    extractJobSummary (some "Job Summary: Point1: Build APIs Point2: Lead the team")
      = ["Build APIs", "Lead the team"] ∧
    extractJobSummary (some "Job Summary: We build things. You will lead teams and projects. Tiny. A third long sentence here. Fourth meaningful sentence text. Fifth meaningful sentence text. Sixth sentence is dropped entirely.")
      = ["We build things", "You will lead teams and projects", "A third long sentence here",
         "Fourth meaningful sentence text", "Fifth meaningful sentence text"] ∧
    extractRequiredSkills (some "no markers here") = [] ∧
    extractJobSummary (some "no markers here") = [] ∧
    extractRequiredSkills none = [] ∧
    extractJobSummary none = [] := by
  refine ⟨?_, by decide, by decide, by decide, by decide, by decide, rfl, rfl⟩
  intro c
  match c with
  | none => rfl
  | some s =>
    unfold extractRequiredSkills claimedRequiredSkills
    by_cases h : (s == "") = true
    · simp [h]
    · simp only [h, Bool.false_eq_true, if_false]
      cases hri : requiredSkillsItems s <;> simp [hri]

end JobMatcher
